import Mathlib

/-
Verification of the `lutz_one_pass` library: a shallow embedding of
`lutzObject.hpp` / `lutzObject.cpp` (pixel container with incremental summary
statistics and centroid computation) and `lutzOnePass.hpp` / `lutzOnePass.cpp`
(the Lutz one-pass connected-component labeling scan).

Modeling conventions:
  * C++ `double` is modeled as `ℚ` (exact arithmetic idealization).
  * C++ `int` is modeled as `Int`.
  * `std::vector` is modeled as `List`; the unchecked accesses of the source
    (`operator[]`, raw loops) go through `lget` / `lset`, and a ghost Boolean
    field `ub` on the scan state records whether any access was out of bounds
    (out-of-bounds vector access is undefined behavior in the source).  A null
    image pointer dereference likewise sets `ub`.  On `ub = false` runs the
    model computes exactly what the C++ computes.
  * The infinitely recursive corner of `lutzObject::centroid` is modeled with
    an explicit fuel parameter: `centroid fuel o wb = none` means the source
    recursion does not terminate within `fuel` calls.
  * A ghost counter `sMergeCount` on the scan state counts executions of the
    fork/rejoin merge branch of `ProcessNewMarker` (previous-row marker `'s'`
    with `m_CS == OBJECT && m_PS == COMPLETE`); it changes no computed data.
-/

/-! ## Pixel data (`lutzObject::pixData`) -/

structure pixData where
  m_xbin : Int
  m_ybin : Int
  m_value : ℚ
  m_scale : ℚ
deriving DecidableEq, Repr

/-- Constructor `pixData(x, y, val)`: `m_scale` always starts at `1.0`. -/
def pixData.mkP (x y : Int) (v : ℚ) : pixData :=
  { m_xbin := x, m_ybin := y, m_value := v, m_scale := 1 }

/-! ## The pixel container (`lutzObject`) -/

structure lutzObject where
  m_xmin : Int
  m_xmax : Int
  m_ymin : Int
  m_ymax : Int
  m_value_max : ℚ
  m_value_min : ℚ
  m_value_sum : ℚ
  m_pixInfo : List pixData
deriving DecidableEq, Repr

namespace lutzObject

/-- Method `clear()`: sentinel summary values of the source
(`1e7`, `-1e7` as `int`; `1.0e30`, `-1.0e30` as `double`). -/
def clear (_o : lutzObject) : lutzObject :=
  { m_pixInfo := []
    m_xmin := 10000000
    m_xmax := -10000000
    m_ymin := 10000000
    m_ymax := -10000000
    m_value_min := 10 ^ 30
    m_value_max := -(10 ^ 30)
    m_value_sum := 0 }

/-- Default constructor `lutzObject()` (it calls `clear()`). -/
def empty : lutzObject :=
  clear { m_pixInfo := [], m_xmin := 0, m_xmax := 0, m_ymin := 0, m_ymax := 0,
          m_value_max := 0, m_value_min := 0, m_value_sum := 0 }

/-- Method `contains(pixel)`: positional membership test. -/
def contains (o : lutzObject) (p : pixData) : Bool :=
  o.m_pixInfo.any (fun q => q.m_xbin == p.m_xbin && q.m_ybin == p.m_ybin)

/-- Method `append(const pixData&)`: positional duplicate is a no-op, otherwise
update all summary fields and push the pixel. -/
def append (o : lutzObject) (p : pixData) : lutzObject :=
  if o.contains p then o
  else
    { m_xmin := if p.m_xbin < o.m_xmin then p.m_xbin else o.m_xmin
      m_xmax := if p.m_xbin > o.m_xmax then p.m_xbin else o.m_xmax
      m_ymin := if p.m_ybin < o.m_ymin then p.m_ybin else o.m_ymin
      m_ymax := if p.m_ybin > o.m_ymax then p.m_ybin else o.m_ymax
      m_value_min := if p.m_value < o.m_value_min then p.m_value else o.m_value_min
      m_value_max := if p.m_value > o.m_value_max then p.m_value else o.m_value_max
      m_pixInfo := o.m_pixInfo ++ [p]
      m_value_sum := o.m_value_sum + p.m_value }

/-- Method `append(std::vector<pixData>&)`: appends each pixel in order. -/
def appendVec (o : lutzObject) (ps : List pixData) : lutzObject :=
  ps.foldl append o

/-- Method `remove(index)`: subtracts the pixel value from the running sum
(via `operator double()`) and erases the entry; no other summary field is
touched by the source. -/
def remove (o : lutzObject) (index : Nat) : lutzObject :=
  { o with
    m_value_sum := o.m_value_sum - (o.m_pixInfo.getD index (pixData.mkP 0 0 0)).m_value
    m_pixInfo := o.m_pixInfo.eraseIdx index }

/-- Per-pixel weight of the centroid loop: `m_scale`, multiplied by `m_value`
when `weight_bins` is set. -/
def centroidWeight (wb : Bool) (p : pixData) : ℚ :=
  if wb then p.m_scale * p.m_value else p.m_scale

/-- Accumulated `weight_sum` of `centroid`. -/
def centroidWSum (o : lutzObject) (wb : Bool) : ℚ :=
  (o.m_pixInfo.map (centroidWeight wb)).sum

/-- Accumulated (pre-normalization) `xcenter` of `centroid`. -/
def centroidXSum (o : lutzObject) (wb : Bool) : ℚ :=
  (o.m_pixInfo.map (fun p => centroidWeight wb p * p.m_xbin)).sum

/-- Accumulated (pre-normalization) `ycenter` of `centroid`. -/
def centroidYSum (o : lutzObject) (wb : Bool) : ℚ :=
  (o.m_pixInfo.map (fun p => centroidWeight wb p * p.m_ybin)).sum

/-- Method `centroid(xcenter, ycenter, weight_bins)`.  The source normalizes
when `weight_sum > 0.0` and otherwise calls `centroid(xcenter, ycenter,
false)` again; that self-call never terminates when even the unweighted
`weight_sum` fails to be positive, so the recursion is modeled with fuel:
`none` means the source recursion makes more than `fuel` calls (divergence
for every finite fuel). -/
def centroid : Nat → lutzObject → Bool → Option (ℚ × ℚ)
  | 0, _, _ => none
  | fuel + 1, o, wb =>
    let ws := centroidWSum o wb
    if 0 < ws then some (centroidXSum o wb / ws, centroidYSum o wb / ws)
    else centroid fuel o false

end lutzObject

/-! ## Specification-side aggregates (used to state the claims about
`lutzObject`'s summary fields; these are the mathematical aggregates, not the
source's incremental updates) -/

def minList [Min α] : List α → Option α
  | [] => none
  | x :: xs => some (xs.foldl min x)

def maxList [Max α] : List α → Option α
  | [] => none
  | x :: xs => some (xs.foldl max x)

/-- The summary-field invariant claimed by the spec: every summary field of
the object equals the corresponding mathematical aggregate over the current
pixel set. -/
def objAggOK (o : lutzObject) : Prop :=
  minList (o.m_pixInfo.map pixData.m_xbin) = some o.m_xmin ∧
  maxList (o.m_pixInfo.map pixData.m_xbin) = some o.m_xmax ∧
  minList (o.m_pixInfo.map pixData.m_ybin) = some o.m_ymin ∧
  maxList (o.m_pixInfo.map pixData.m_ybin) = some o.m_ymax ∧
  minList (o.m_pixInfo.map pixData.m_value) = some o.m_value_min ∧
  maxList (o.m_pixInfo.map pixData.m_value) = some o.m_value_max ∧
  (o.m_pixInfo.map pixData.m_value).sum = o.m_value_sum

/-- Invariant carried through `append`/`clear` sequences: the object is
either exactly the freshly cleared one, or non-empty with correct summary
aggregates. -/
def objInv (o : lutzObject) : Prop :=
  (o.m_pixInfo = [] ∧ o = lutzObject.empty) ∨ (o.m_pixInfo ≠ [] ∧ objAggOK o)

/-- An operation sequence on a `lutzObject`, as quantified over by the
summary-field invariant claim: single-pixel appends and clears.  (`remove` is
treated separately in the claims because the source updates only the running
sum there.) -/
inductive ObjOp where
  | app (p : pixData)
  | clr
deriving DecidableEq

def applyOp (o : lutzObject) : ObjOp → lutzObject
  | .app p => o.append p
  | .clr => o.clear

def applyOps (ops : List ObjOp) : lutzObject :=
  ops.foldl applyOp lutzObject.empty

/-- Coordinate/value bounds under which the source's sentinel initializers
(`±1e7` for positions, `±1e30` for values) behave as identities for min/max
tracking. -/
def pixInRange (p : pixData) : Prop :=
  p.m_xbin ≤ 10000000 ∧ -10000000 ≤ p.m_xbin ∧
  p.m_ybin ≤ 10000000 ∧ -10000000 ≤ p.m_ybin ∧
  p.m_value ≤ 10 ^ 30 ∧ -(10 ^ 30) ≤ p.m_value

def opInRange : ObjOp → Prop
  | .app p => pixInRange p
  | .clr => True

/-! ## The scan engine (`lutzOnePass`) -/

inductive LUTZSTATUS where
  | COMPLETE
  | INCOMPLETE
  | OBJECT
  | NONOBJECT
deriving DecidableEq, Repr

inductive LUTZ_STACK_ACTION where
  | PUSH
  | POP
deriving DecidableEq, Repr

/-- Configuration members of `lutzOnePass` fixed before `run()`.  The image is
an optional flat accessor (`double*`): `none` models a null pointer. -/
structure lutzConfig where
  m_image : Option (Int → ℚ)
  m_xpix : Int
  m_ypix : Int
  m_threshold : ℚ
  m_npixelmin : Int

/-- Raw pixel vectors (`typedef std::vector<lutzObject::pixData> Object`). -/
abbrev RawObject : Type := List pixData

/-- Mutable members of `lutzOnePass` during `run()`, together with the local
variables `co` and `pstop` of `run` (passed by reference throughout) and the
two ghost fields `ub` and `sMergeCount` described in the header comment. -/
structure lutzState where
  m_MARKER : List Char
  m_PSSTACK : List LUTZSTATUS
  m_START : List Int
  m_END : List Int
  m_INFO : List RawObject
  m_STORE : List RawObject
  m_Objects : List lutzObject
  m_PS : LUTZSTATUS
  m_CS : LUTZSTATUS
  co : Int
  pstop : Int
  ub : Bool
  sMergeCount : Nat
deriving DecidableEq

/-- Unchecked `std::vector` read at a possibly signed index; out of range
yields the default (the `ub` ghost flag is set separately at each use site). -/
def lget (l : List α) (i : Int) (d : α) : α :=
  if 0 ≤ i then l.getD i.toNat d else d

/-- Unchecked `std::vector` write; out of range is dropped (the `ub` ghost
flag is set separately at each use site). -/
def lset (l : List α) (i : Int) (v : α) : List α :=
  if 0 ≤ i then l.set i.toNat v else l

/-- In-bounds test backing the `ub` ghost flag. -/
def lok (l : List α) (i : Int) : Bool :=
  0 ≤ i && i < (l.length : Int)

/-- Null character, the "no marker" value of `m_MARKER`. -/
def mNone : Char := Char.ofNat 0

/-- Method `ModPSSTACK(status, pstop)`. -/
def ModPSSTACK (status : LUTZ_STACK_ACTION) (s : lutzState) : lutzState :=
  match status with
  | .PUSH =>
    { s with
      m_PSSTACK := lset s.m_PSSTACK s.pstop s.m_PS
      ub := s.ub || !lok s.m_PSSTACK s.pstop
      m_PS := .COMPLETE
      pstop := s.pstop + 1 }
  | .POP =>
    let s1 : lutzState :=
      { s with
        m_PSSTACK := lset s.m_PSSTACK s.pstop .COMPLETE
        ub := s.ub || !lok s.m_PSSTACK s.pstop
        pstop := s.pstop - 1 }
    { s1 with
      m_PS := lget s1.m_PSSTACK s1.pstop .COMPLETE
      ub := s1.ub || !lok s1.m_PSSTACK s1.pstop }

/-- Method `ModOBSTACK(status, co, pstop, xbin)`.  On `POP` the source copies
`m_INFO[co]` into `m_STORE[m_START[co]]` element by element with `push_back`
(no `m_STORE` access happens when `m_INFO[co]` is empty), then clears the
slot. -/
def ModOBSTACK (status : LUTZ_STACK_ACTION) (xbin : Int) (s : lutzState) : lutzState :=
  match status with
  | .PUSH =>
    let s1 := ModPSSTACK .PUSH s
    let s2 : lutzState := { s1 with co := s1.co + 1 }
    { s2 with
      m_START := lset s2.m_START s2.co xbin
      m_INFO := lset s2.m_INFO s2.co []
      ub := s2.ub || !lok s2.m_START s2.co || !lok s2.m_INFO s2.co }
  | .POP =>
    let s1 := ModPSSTACK .POP s
    let info := lget s1.m_INFO s1.co []
    let st := lget s1.m_START s1.co (-1)
    let s2 : lutzState :=
      { s1 with
        m_STORE := if info.isEmpty then s1.m_STORE else
          lset s1.m_STORE st (lget s1.m_STORE st [] ++ info)
        ub := s1.ub || !lok s1.m_INFO s1.co || !lok s1.m_START s1.co ||
          (!info.isEmpty && !lok s1.m_STORE st) }
    { s2 with
      m_INFO := lset s2.m_INFO s1.co []
      m_START := lset s2.m_START s1.co (-1)
      m_END := lset s2.m_END s1.co (-1)
      ub := s2.ub || !lok s2.m_END s1.co
      co := s1.co - 1 }

/-- Method `StartSegment(xindx, co, pstop)`. -/
def StartSegment (xindx : Int) (s : lutzState) : lutzState :=
  let s0 : lutzState := { s with m_CS := .OBJECT }
  if s0.m_PS = .OBJECT then
    if lget s0.m_START s0.co (-1) = -1 then
      { s0 with
        m_MARKER := lset s0.m_MARKER xindx 'S'
        m_START := lset s0.m_START s0.co xindx
        ub := s0.ub || !lok s0.m_START s0.co || !lok s0.m_MARKER xindx }
    else
      { s0 with
        m_MARKER := lset s0.m_MARKER xindx 's'
        ub := s0.ub || !lok s0.m_START s0.co || !lok s0.m_MARKER xindx }
  else
    let s1 := ModOBSTACK .PUSH xindx s0
    { s1 with
      m_MARKER := lset s1.m_MARKER xindx 'S'
      ub := s1.ub || !lok s1.m_MARKER xindx }

/-- Method `EndSegment(xindx, co, pstop)`. -/
def EndSegment (xindx : Int) (s : lutzState) : lutzState :=
  let s0 : lutzState := { s with m_CS := .NONOBJECT }
  if s0.m_PS ≠ .COMPLETE then
    { s0 with
      m_MARKER := lset s0.m_MARKER xindx 'f'
      m_END := lset s0.m_END s0.co xindx
      ub := s0.ub || !lok s0.m_MARKER xindx || !lok s0.m_END s0.co }
  else
    let s1 := ModOBSTACK .POP xindx s0
    { s1 with
      m_MARKER := lset s1.m_MARKER xindx 'F'
      ub := s1.ub || !lok s1.m_MARKER xindx }

/-- Size filter of `WriteObject`: `obj.size() >= m_npixelmin` compares the
unsigned `size_t` with the signed minimum, so a negative `m_npixelmin`
converts to a huge unsigned value and the test is false. -/
def npixelOK (len : Nat) (npixelmin : Int) : Bool :=
  if 0 ≤ npixelmin then npixelmin.toNat ≤ len else false

/-- Method `WriteObject(obj)`: non-empty raw vectors passing the size filter
are appended to `m_Objects` as a fresh `lutzObject` filled via `append`. -/
def WriteObject (cfg : lutzConfig) (obj : RawObject) (s : lutzState) : lutzState :=
  if !obj.isEmpty && npixelOK obj.length cfg.m_npixelmin then
    { s with m_Objects := s.m_Objects ++ [lutzObject.empty.appendVec obj] }
  else s

/-- Method `ProcessNewMarker(prev_marker, xindx, co, pstop)`: the marker state
machine.  The `'s'` branch with `m_CS == OBJECT && m_PS == COMPLETE` is the
fork/rejoin merge; the ghost counter `sMergeCount` records its executions. -/
def ProcessNewMarker (cfg : lutzConfig) (prev_marker : Char) (xindx : Int)
    (s : lutzState) : lutzState :=
  if prev_marker = 'S' then
    let s1 := ModPSSTACK .PUSH s
    let s2 : lutzState :=
      if s1.m_CS = .NONOBJECT then
        let s2a : lutzState :=
          { s1 with
            m_PSSTACK := lset s1.m_PSSTACK s1.pstop .COMPLETE
            ub := s1.ub || !lok s1.m_PSSTACK s1.pstop
            pstop := s1.pstop + 1 }
        let s2b : lutzState := { s2a with co := s2a.co + 1 }
        let s2c : lutzState :=
          { s2b with
            m_INFO := lset s2b.m_INFO s2b.co (lget s2b.m_STORE xindx [])
            ub := s2b.ub || !lok s2b.m_INFO s2b.co || !lok s2b.m_STORE xindx }
        let s2d : lutzState :=
          { s2c with
            m_START := lset s2c.m_START s2c.co (-1)
            ub := s2c.ub || !lok s2c.m_START s2c.co }
        { s2d with
          m_STORE := lset s2d.m_STORE xindx []
          ub := s2d.ub || !lok s2d.m_STORE xindx }
      else
        let store := lget s1.m_STORE xindx []
        { s1 with
          m_INFO := if store.isEmpty then s1.m_INFO else
            lset s1.m_INFO s1.co (lget s1.m_INFO s1.co [] ++ store)
          ub := s1.ub || !lok s1.m_STORE xindx ||
            (!store.isEmpty && !lok s1.m_INFO s1.co)
          m_STORE := lset s1.m_STORE xindx [] }
    { s2 with m_PS := .OBJECT }
  else if prev_marker = 's' then
    let s1 : lutzState :=
      if s.m_CS = .OBJECT ∧ s.m_PS = .COMPLETE then
        let t0 : lutzState :=
          { s with pstop := s.pstop - 1, sMergeCount := s.sMergeCount + 1 }
        let k := lget t0.m_START t0.co (-1)
        let t1 : lutzState :=
          { t0 with co := t0.co - 1, ub := t0.ub || !lok t0.m_START t0.co }
        if lget t1.m_START t1.co (-1) = -1 then
          { t1 with
            m_START := lset t1.m_START t1.co k
            ub := t1.ub || !lok t1.m_START t1.co }
        else
          { t1 with
            m_MARKER := lset t1.m_MARKER k 's'
            ub := t1.ub || !lok t1.m_START t1.co || !lok t1.m_MARKER k }
      else s
    { s1 with m_PS := .OBJECT }
  else if prev_marker = 'f' then
    { s with m_PS := .INCOMPLETE }
  else if prev_marker = 'F' then
    let s1 : lutzState := { s with pstop := s.pstop - 1 }
    let s2 : lutzState :=
      { s1 with
        m_PS := lget s1.m_PSSTACK s1.pstop .COMPLETE
        ub := s1.ub || !lok s1.m_PSSTACK s1.pstop }
    if s2.m_CS = .NONOBJECT ∧ s2.m_PS = .COMPLETE then
      let s3 : lutzState :=
        if lget s2.m_START s2.co (-1) = -1 then
          let s3a := WriteObject cfg (lget s2.m_INFO s2.co [])
            { s2 with ub := s2.ub || !lok s2.m_START s2.co || !lok s2.m_INFO s2.co }
          { s3a with
            m_INFO := lset s3a.m_INFO s2.co []
            ub := s3a.ub || !lok s3a.m_INFO s2.co }
        else
          let e := lget s2.m_END s2.co (-1)
          let s3a : lutzState :=
            { s2 with
              m_MARKER := lset s2.m_MARKER e 'F'
              ub := s2.ub || !lok s2.m_START s2.co || !lok s2.m_END s2.co ||
                !lok s2.m_MARKER e }
          let st := lget s3a.m_START s3a.co (-1)
          { s3a with
            m_STORE := lset s3a.m_STORE st (lget s3a.m_INFO s3a.co [])
            ub := s3a.ub || !lok s3a.m_STORE st || !lok s3a.m_INFO s3a.co }
      let s4 : lutzState := { s3 with co := s3.co - 1, pstop := s3.pstop - 1 }
      { s4 with
        m_PS := lget s4.m_PSSTACK s4.pstop .COMPLETE
        ub := s4.ub || !lok s4.m_PSSTACK s4.pstop }
    else s2
  else s

/-- Loop body of `StoreClearance()`: save slot `i` and clear it. -/
def StoreClearanceStep (cfg : lutzConfig) (t : lutzState) (i : Nat) : lutzState :=
  let t1 := WriteObject cfg (lget t.m_STORE (i : Int) []) t
  { t1 with m_STORE := lset t1.m_STORE (i : Int) [] }

/-- Method `StoreClearance()`: flush every still-resident `m_STORE` slot
through `WriteObject` and clear it.  (`m_STORE`'s length is invariant during
the loop, matching the source's index loop over `m_STORE.size()`.) -/
def StoreClearance (cfg : lutzConfig) (s : lutzState) : lutzState :=
  (List.range s.m_STORE.length).foldl (StoreClearanceStep cfg) s

/-- Method `GetPixValue(xbin, ybin)`: flat access `m_image[m_xpix*ybin+xbin]`.
Second component: whether the read dereferenced a null image (UB). -/
def GetPixValue (cfg : lutzConfig) (xbin ybin : Int) : ℚ × Bool :=
  match cfg.m_image with
  | none => (0, true)
  | some img => (img (cfg.m_xpix * ybin + xbin), false)

/-- Method `AssessPixel(xbin, ybin)`: strict threshold comparison. -/
def AssessPixel (cfg : lutzConfig) (xbin ybin : Int) : Bool :=
  (GetPixValue cfg xbin ybin).1 > cfg.m_threshold

/-- Body of the inner column loop of `run()` at row `yindx`, column
`xindx < m_xpix`. -/
def processCol (cfg : lutzConfig) (yindx xindx : Int) (s : lutzState) : lutzState :=
  let pv := GetPixValue cfg xindx yindx
  let pixel : pixData := { m_xbin := xindx, m_ybin := yindx, m_value := pv.1, m_scale := 1 }
  let prev_marker := lget s.m_MARKER xindx mNone
  let s0 : lutzState :=
    { s with
      m_MARKER := lset s.m_MARKER xindx mNone
      ub := s.ub || !lok s.m_MARKER xindx || pv.2 }
  let is_image_pixel := pv.1 > cfg.m_threshold
  if is_image_pixel then
    let s1 := if s0.m_CS = .NONOBJECT then StartSegment xindx s0 else s0
    let s2 := if prev_marker ≠ mNone then ProcessNewMarker cfg prev_marker xindx s1 else s1
    { s2 with
      m_INFO := lset s2.m_INFO s2.co (lget s2.m_INFO s2.co [] ++ [pixel])
      ub := s2.ub || !lok s2.m_INFO s2.co }
  else
    let s1 := if prev_marker ≠ mNone then ProcessNewMarker cfg prev_marker xindx s0 else s0
    if s1.m_CS = .OBJECT then EndSegment xindx s1 else s1

/-- Columns `x, x+1, ..., x+n-1` of row `yindx`. -/
def processColsAux (cfg : lutzConfig) (yindx : Int) : Nat → Int → lutzState → lutzState
  | 0, _, s => s
  | n + 1, x, s => processColsAux cfg yindx n (x + 1) (processCol cfg yindx x s)

/-- End-of-row handling of `run()`: consume `m_MARKER.back()` (that is,
`m_MARKER[m_MARKER.size()-1]`, the synthetic trailing column; `xindx ==
m_xpix` after the inner loop) and close a still open segment.  `back()` on
an empty vector is UB. -/
def processRowEnd (cfg : lutzConfig) (s : lutzState) : lutzState :=
  let last : Int := (s.m_MARKER.length : Int) - 1
  let prev_marker := lget s.m_MARKER last mNone
  let s0 : lutzState :=
    { s with
      m_MARKER := lset s.m_MARKER last mNone
      ub := s.ub || s.m_MARKER.isEmpty }
  let xindx : Int := cfg.m_xpix
  let s1 := if prev_marker ≠ mNone then ProcessNewMarker cfg prev_marker xindx s0 else s0
  if s1.m_CS = .OBJECT then EndSegment xindx s1 else s1

/-- One full row of `run()`: reset `m_PS`/`m_CS`, scan all `m_xpix` columns,
then the synthetic trailing column. -/
def processRow (cfg : lutzConfig) (yindx : Int) (s : lutzState) : lutzState :=
  let s0 : lutzState := { s with m_PS := .COMPLETE, m_CS := .NONOBJECT }
  processRowEnd cfg (processColsAux cfg yindx cfg.m_xpix.toNat 0 s0)

/-- Rows `y, y+1, ..., y+n-1` of `run()`. -/
def processRowsAux (cfg : lutzConfig) : Nat → Int → lutzState → lutzState
  | 0, _, s => s
  | n + 1, y, s => processRowsAux cfg n (y + 1) (processRow cfg y s)

/-- Method `init_members()`: fresh auxiliary arrays sized from `m_xpix`
(`m_MARKER` gets one extra trailing slot).  A negative `m_xpix` makes the
`std::vector` size constructors ill-formed (bad `size_t` conversion), which
the ghost flag records. -/
def init_members (cfg : lutzConfig) : lutzState :=
  { m_MARKER := List.replicate (cfg.m_xpix + 1).toNat mNone
    m_PSSTACK := List.replicate cfg.m_xpix.toNat .COMPLETE
    m_START := List.replicate cfg.m_xpix.toNat (-1)
    m_END := List.replicate cfg.m_xpix.toNat (-1)
    m_INFO := List.replicate cfg.m_xpix.toNat []
    m_STORE := List.replicate cfg.m_xpix.toNat []
    m_Objects := []
    m_PS := .COMPLETE
    m_CS := .NONOBJECT
    co := 0
    pstop := 0
    ub := decide (cfg.m_xpix < 0)
    sMergeCount := 0 }

/-- Method `run()`: reset members, scan every row, then flush `m_STORE`. -/
def runState (cfg : lutzConfig) : lutzState :=
  StoreClearance cfg (processRowsAux cfg cfg.m_ypix.toNat 0 (init_members cfg))

/-- Error channel the source could have used; no path of `run()` ever raises:
the source contains no validation and no exception handling, so `run` is
always `Except.ok`. -/
inductive ScanError where
  | configurationError
  | invariantViolation
  | indexError
deriving DecidableEq, Repr

/-- Entry point `run()` with its (never used) failure channel made explicit. -/
def run (cfg : lutzConfig) : Except ScanError lutzState :=
  .ok (runState cfg)

/-- Method `NumObjects()`. -/
def NumObjects (s : lutzState) : Int :=
  s.m_Objects.length

/-- Result of an unchecked C++ access: either a defined value or undefined
behavior.  (Distinct from `ScanError`: UB is not a reported error.) -/
inductive CppResult (α : Type) where
  | ok (a : α)
  | ub
deriving DecidableEq

/-- Method `GetObject(obj_id)`: `return m_Objects[obj_id];` — an unchecked
`std::vector::operator[]`, defined exactly on `[0, m_Objects.size())` and
undefined behavior elsewhere.  No bounds check appears in the source. -/
def GetObject (s : lutzState) (obj_id : Int) : CppResult lutzObject :=
  if h : 0 ≤ obj_id ∧ obj_id.toNat < s.m_Objects.length then
    .ok (s.m_Objects.get ⟨obj_id.toNat, h.2⟩)
  else
    .ub

/-! ## Specification-side notions for the scan claims -/

/-- Position projection of a pixel record. -/
def pixPos (p : pixData) : Int × Int :=
  (p.m_xbin, p.m_ybin)

/-- Position list of an emitted object. -/
def objPositions (o : lutzObject) : List (Int × Int) :=
  o.m_pixInfo.map pixPos

/-- 8-adjacency of two distinct grid positions. -/
def adj8 (p q : Int × Int) : Bool :=
  (p ≠ q) && (p.1 - q.1).natAbs ≤ 1 && (p.2 - q.2).natAbs ≤ 1

/-- One step of reachability closure inside `ps`. -/
def growReach (ps cur : List (Int × Int)) : List (Int × Int) :=
  ps.filter (fun p => cur.contains p || cur.any (fun q => adj8 p q))

/-- Iterated closure. -/
def reachIter (ps : List (Int × Int)) : Nat → List (Int × Int) → List (Int × Int)
  | 0, cur => cur
  | n + 1, cur => reachIter ps n (growReach ps cur)

/-- Executable 8-connectivity test of a duplicate-free position list: after
`ps.length` closure rounds from the first element, everything is reached. -/
def connected8 (ps : List (Int × Int)) : Bool :=
  match ps with
  | [] => true
  | p :: _ => (reachIter ps ps.length [p]).length == ps.length

/-- All grid cells, row major. -/
def gridCells (w h : Int) : List (Int × Int) :=
  (List.range h.toNat).flatMap (fun y => (List.range w.toNat).map (fun x => ((x : Int), (y : Int))))

/-- Foreground cells of a configuration (strictly above threshold). -/
def fgCells (cfg : lutzConfig) : List (Int × Int) :=
  (gridCells cfg.m_xpix cfg.m_ypix).filter (fun p => AssessPixel cfg p.1 p.2)

/-- Image accessor built from a flat row-major list. -/
def imageOfList (l : List ℚ) : Int → ℚ :=
  fun i => if 0 ≤ i then l.getD i.toNat 0 else 0

/-- Concrete grid (4 wide, 3 tall) with a single 8-connected foreground
component of five pixels in a diagonal fork/rejoin pattern:
`.XX. / X..X / ..X.` -/
def g43 : List ℚ := [0, 1, 1, 0, 1, 0, 0, 1, 0, 0, 1, 0]

def cfg43 : lutzConfig :=
  { m_image := some (imageOfList g43), m_xpix := 4, m_ypix := 3,
    m_threshold := 0, m_npixelmin := 0 }

/-- Same grid with minimum object size 5 (the component's exact pixel count). -/
def cfg43m5 : lutzConfig :=
  { cfg43 with m_npixelmin := 5 }

/-- Concrete grid (4 wide, 4 tall): the same pattern with one more diagonal
pixel: `.XX. / X..X / ..X. / ...X` -/
def g44 : List ℚ := [0, 1, 1, 0, 1, 0, 0, 1, 0, 0, 1, 0, 0, 0, 0, 1]

def cfg44 : lutzConfig :=
  { m_image := some (imageOfList g44), m_xpix := 4, m_ypix := 4,
    m_threshold := 0, m_npixelmin := 0 }

/-- Concrete 1-wide, 1-tall grid holding a single foreground pixel. -/
def cfg11 : lutzConfig :=
  { m_image := some (imageOfList [1]), m_xpix := 1, m_ypix := 1,
    m_threshold := 0, m_npixelmin := 0 }

/-- Concrete U-shaped grid (3 wide, 2 tall): two one-pixel vertical bars at
columns 0 and 2 joined by the bottom row: `X.X / XXX` -/
def cfgU32 : lutzConfig :=
  { m_image := some (imageOfList [1, 0, 1, 1, 1, 1]), m_xpix := 3, m_ypix := 2,
    m_threshold := 0, m_npixelmin := 0 }

/-- Degenerate configuration: null image accessor and zero-by-zero grid. -/
def cfg00 : lutzConfig :=
  { m_image := none, m_xpix := 0, m_ypix := 0, m_threshold := 0, m_npixelmin := 0 }

/-- Modelled from the spec: `object(index)` is "bounds-checked against
`objectCount()`" with an **IndexError** "reported immediately" on
out-of-range queries.  (This checked accessor does not exist in the source;
it is the behavior the spec prescribes, for comparison with `GetObject`.) -/
def GetObject_spec (s : lutzState) (obj_id : Int) : Except ScanError lutzObject :=
  if h : 0 ≤ obj_id ∧ obj_id.toNat < s.m_Objects.length then
    .ok (s.m_Objects.get ⟨obj_id.toNat, h.2⟩)
  else
    .error .indexError

/-! ## The U-shaped grid family (claim C2)

Modelled from the spec: "a grid containing a single U-shaped foreground
component: two vertical bars of foreground pixels joined by a single
horizontal row of foreground pixels beneath them", all other pixels
background.  The bars are one pixel wide, at columns `x1` and `x2`, spanning
rows `y0 .. y1 - 1`; row `y1` joins them from `x1` to `x2`. -/

def fU (x1 x2 y0 y1 : Int) (x y : Int) : ℚ :=
  if (y0 ≤ y ∧ y < y1 ∧ (x = x1 ∨ x = x2)) ∨ (y = y1 ∧ x1 ≤ x ∧ x ≤ x2) then 1 else 0

/-- Row-major flat accessor (width `w`) for a per-coordinate image function. -/
def pix2im (w : Int) (f : Int → Int → ℚ) : Int → ℚ :=
  fun bin => f (bin % w) (bin / w)

/-- Configuration scanning a U-shaped grid, threshold `0`, no size filter. -/
def cfgU (w h x1 x2 y0 y1 : Int) : lutzConfig :=
  { m_image := some (pix2im w (fU x1 x2 y0 y1)), m_xpix := w, m_ypix := h,
    m_threshold := 0, m_npixelmin := 0 }

/-- Pixels of a one-wide vertical bar at column `c`, rows `y0 .. y0+k-1`. -/
def barPixList (c y0 : Int) (k : Nat) : RawObject :=
  (List.range k).map (fun (i : Nat) => pixData.mkP c (y0 + (i : Int)) 1)

/-- Pixels of a horizontal run at row `y`, columns `a .. a+n-1`. -/
def rowPixList (a y : Int) (n : Nat) : RawObject :=
  (List.range n).map (fun (i : Nat) => pixData.mkP (a + (i : Int)) y 1)

/-- The raw pixel vector of the single U object, in the order the scan
accumulates it: left bar, then the join row up to the right bar's column
(with the right bar's pixels spliced in just before its join-row pixel). -/
def uPixList (x1 x2 y0 y1 : Int) : RawObject :=
  barPixList x1 y0 (y1 - y0).toNat ++ [pixData.mkP x1 y1 1] ++
    rowPixList (x1 + 1) y1 (x2 - x1 - 1).toNat ++
    barPixList x2 y0 (y1 - y0).toNat ++ [pixData.mkP x2 y1 1]

/-- Common shape of a background column step and of the synthetic trailing
step of a row (proof-internal abbreviation: both read and clear the marker,
resolve it, and close an open segment; neither looks at the image). -/
def bgStep (cfg : lutzConfig) (x : Int) (s : lutzState) : lutzState :=
  let prev_marker := lget s.m_MARKER x mNone
  let s0 : lutzState :=
    { s with
      m_MARKER := lset s.m_MARKER x mNone
      ub := s.ub || !lok s.m_MARKER x }
  let s1 := if prev_marker ≠ mNone then ProcessNewMarker cfg prev_marker x s0 else s0
  if s1.m_CS = .OBJECT then EndSegment x s1 else s1

/-- Between-rows state of a U-shape scan while the bars are being tracked:
the four markers left by a bar row, the two bar fragments waiting in
`m_STORE`, and free object stacks. -/
def uBarState (w x1 x2 : Int) (S1 S2 : RawObject) : lutzState :=
  { m_MARKER := lset (lset (lset (lset (List.replicate (w + 1).toNat mNone) x1 'S')
      (x1 + 1) 'F') x2 'S') (x2 + 1) 'F'
    m_PSSTACK := List.replicate w.toNat .COMPLETE
    m_START := List.replicate w.toNat (-1)
    m_END := List.replicate w.toNat (-1)
    m_INFO := List.replicate w.toNat []
    m_STORE := lset (lset (List.replicate w.toNat []) x1 S1) x2 S2
    m_Objects := []
    m_PS := .COMPLETE
    m_CS := .NONOBJECT
    co := 0
    pstop := 0
    ub := false
    sMergeCount := 0 }

/-- Between-rows state right after the joining row: one marker pair left, the
whole U waiting in `m_STORE` at column `x1`. -/
def uJoinState (w x1 x2 : Int) (L : RawObject) : lutzState :=
  { m_MARKER := lset (lset (List.replicate (w + 1).toNat mNone) x1 'S') (x2 + 1) 'F'
    m_PSSTACK := List.replicate w.toNat .COMPLETE
    m_START := List.replicate w.toNat (-1)
    m_END := List.replicate w.toNat (-1)
    m_INFO := List.replicate w.toNat []
    m_STORE := lset (List.replicate w.toNat []) x1 L
    m_Objects := []
    m_PS := .COMPLETE
    m_CS := .NONOBJECT
    co := 0
    pstop := 0
    ub := false
    sMergeCount := 0 }

/-- Quiescent state: clean auxiliary arrays, a list of already emitted
objects.  (`init_members` produces this with no objects, for `0 ≤ w`.) -/
def uCleanState (w : Int) (objs : List lutzObject) : lutzState :=
  { m_MARKER := List.replicate (w + 1).toNat mNone
    m_PSSTACK := List.replicate w.toNat .COMPLETE
    m_START := List.replicate w.toNat (-1)
    m_END := List.replicate w.toNat (-1)
    m_INFO := List.replicate w.toNat []
    m_STORE := List.replicate w.toNat []
    m_Objects := objs
    m_PS := .COMPLETE
    m_CS := .NONOBJECT
    co := 0
    pstop := 0
    ub := false
    sMergeCount := 0 }

/-! ## Concrete objects for the centroid claims -/

/-- Two pixels with negative values (weight-scales 1): the weighted centroid
denominator is `-4`, nonzero but not positive. -/
def objNegVals : lutzObject :=
  (lutzObject.empty.append (pixData.mkP 0 0 (-1))).append (pixData.mkP 3 0 (-3))

/-- Two pixels with weight-scales `2` and `-3` (values `0`): one scale is
strictly positive but the scale sum is `-1`. -/
def objMixedScale : lutzObject :=
  { m_pixInfo := [{ m_xbin := 0, m_ybin := 0, m_value := 0, m_scale := 2 },
                  { m_xbin := 1, m_ybin := 0, m_value := 0, m_scale := -3 }]
    m_xmin := 0, m_xmax := 1, m_ymin := 0, m_ymax := 0
    m_value_max := 0, m_value_min := 0, m_value_sum := 0 }

/-- One pixel of positive value: both centroid denominators are positive. -/
def objPos : lutzObject :=
  lutzObject.empty.append (pixData.mkP 3 4 2)

/-- Two appended pixels, then `remove` of the second (the one carrying both
the maximal value and the maximal column). -/
def objRemove : lutzObject :=
  ((lutzObject.empty.append (pixData.mkP 0 0 1)).append (pixData.mkP 1 0 2)).remove 1

set_option maxRecDepth 100000

/-! ## Toolkit: unchecked-access helpers -/

theorem getD_set_self : ∀ (l : List α) (n : Nat) (v d : α), n < l.length →
    (l.set n v).getD n d = v
  | _ :: _, 0, _, _, _ => rfl
  | _ :: l, n + 1, v, d, h => getD_set_self l n v d (Nat.lt_of_succ_lt_succ h)

theorem getD_set_ne : ∀ (l : List α) (m n : Nat), m ≠ n → ∀ (v d : α),
    (l.set m v).getD n d = l.getD n d
  | [], _, _, _, _, _ => rfl
  | _ :: _, 0, 0, h, _, _ => absurd rfl h
  | _ :: _, 0, _ + 1, _, _, _ => rfl
  | _ :: _, _ + 1, 0, _, _, _ => rfl
  | _ :: l, m + 1, n + 1, h, v, d =>
    getD_set_ne l m n (fun e => h (by rw [e])) v d

theorem set_getD_self : ∀ (l : List α) (n : Nat) (d : α),
    l.set n (l.getD n d) = l
  | [], _, _ => rfl
  | _ :: _, 0, _ => rfl
  | a :: l, n + 1, d => congrArg (a :: ·) (set_getD_self l n d)

theorem getD_replicate : ∀ (n : Nat) (d : α) (i : Nat),
    (List.replicate n d).getD i d = d
  | 0, _, _ => rfl
  | _ + 1, _, 0 => rfl
  | n + 1, d, i + 1 => getD_replicate n d i

theorem set_replicate_self : ∀ (n : Nat) (d : α) (i : Nat),
    (List.replicate n d).set i d = List.replicate n d
  | 0, _, _ => rfl
  | _ + 1, _, 0 => rfl
  | n + 1, d, i + 1 => by simp [List.replicate, List.set, set_replicate_self n d i]

theorem lset_lset_self (l : List α) (i : Int) (a b : α) :
    lset (lset l i a) i b = lset l i b := by
  unfold lset
  split
  · exact List.set_set a b l _
  · rfl

theorem length_lset (l : List α) (i : Int) (v : α) : (lset l i v).length = l.length := by
  unfold lset; split <;> simp

theorem lset_comm {i j : Int} (h : i ≠ j) (l : List α) (a b : α) :
    lset (lset l i a) j b = lset (lset l j b) i a := by
  unfold lset
  by_cases hi : 0 ≤ i <;> by_cases hj : 0 ≤ j <;> simp [hi, hj]
  exact List.set_comm a b l (fun e => h (by omega))

theorem lget_replicate (n : Nat) (d : α) (i : Int) :
    lget (List.replicate n d) i d = d := by
  unfold lget; split
  · exact getD_replicate n d i.toNat
  · rfl

theorem lset_replicate_self (n : Nat) (d : α) (i : Int) :
    lset (List.replicate n d) i d = List.replicate n d := by
  unfold lset; split
  · exact set_replicate_self n d i.toNat
  · rfl

theorem lget_lset_self {l : List α} {i : Int} (h0 : 0 ≤ i)
    (h1 : i.toNat < l.length) (v d : α) : lget (lset l i v) i d = v := by
  unfold lget lset
  rw [if_pos h0, if_pos h0]
  exact getD_set_self l i.toNat v d h1

theorem lget_lset_ne {i j : Int} (h : i ≠ j) (l : List α) (v d : α)
    (h0 : 0 ≤ j) : lget (lset l i v) j d = lget l j d := by
  unfold lget lset
  by_cases hi : 0 ≤ i
  · rw [if_pos hi, if_pos h0, if_pos h0]
    refine getD_set_ne l i.toNat j.toNat (fun e => h ?_) v d
    omega
  · rw [if_neg hi]

theorem lset_of_lget_eq {l : List α} {i : Int} {d v : α}
    (h : lget l i d = v) : lset l i v = l := by
  unfold lget at h
  unfold lset
  by_cases h0 : 0 ≤ i
  · rw [if_pos h0] at h
    rw [if_pos h0, ← h]
    exact set_getD_self l i.toNat d
  · rw [if_neg h0]

theorem lok_true {l : List α} {i : Int} (h0 : 0 ≤ i) (h1 : i < (l.length : Int)) :
    lok l i = true := by
  unfold lok
  simp only [Bool.and_eq_true, decide_eq_true_eq]
  exact ⟨h0, h1⟩

theorem lok_lset (l : List α) (i j : Int) (v : α) : lok (lset l i v) j = lok l j := by
  unfold lok
  rw [length_lset]

/-! ## Claim C1: emitted objects 8-connected and pairwise disjoint -/

/-- C1: the spec claims that on every grid every emitted Object's pixel set is
internally 8-connected (and emitted Objects are pairwise position-disjoint).
The code violates this.  On the 4-by-4 grid `.XX. / X..X / ..X. / ...X`
(one single 8-connected foreground component, threshold 0, minimum size 0)
the run is free of undefined behavior and emits exactly one Object whose
pixel set `{(0,1),(1,0),(2,0),(3,1),(3,3)}` is **not** 8-connected: the
foreground pixel `(2,2)` that links `(3,3)` to the rest is dropped by the
fork/rejoin bookkeeping, yet `(3,3)` is still included. -/
theorem C1_code_eval :
    (runState cfg44).ub = false ∧
    (runState cfg44).m_Objects.map objPositions
      = [[(0, 1), (1, 0), (2, 0), (3, 1), (3, 3)]] ∧
    connected8 [(0, 1), (1, 0), (2, 0), (3, 1), (3, 3)] = false ∧
    fgCells cfg44 = [(1, 0), (2, 0), (0, 1), (3, 1), (2, 2), (3, 3)] ∧
    connected8 [(1, 0), (2, 0), (0, 1), (3, 1), (2, 2), (3, 3)] = true := by
  refine ⟨by decide, by decide, by decide, by decide, by decide⟩

/-! ## Claim C3: boundary components fully emitted at end of scan -/

/-- C3: the spec claims every foreground component touching the grid border
is emitted in full by the end of `run()`, with no pixels left in internal
buffers.  The code violates this.  On the 4-by-3 grid `.XX. / X..X / ..X.`
(a single component touching row 0, column 0, the last row and the last
column) the run is UB-free, yet the emitted Object misses the foreground
pixel `(2,2)`, which is still sitting in the internal `m_INFO` buffer (slot
2) after `run()` finishes — `StoreClearance` only flushes `m_STORE`. -/
theorem C3_code_eval :
    (runState cfg43).ub = false ∧
    (runState cfg43).m_Objects.map objPositions = [[(0, 1), (1, 0), (2, 0), (3, 1)]] ∧
    ((2, 2) ∈ fgCells cfg43 ∧ connected8 (fgCells cfg43) = true) ∧
    ((runState cfg43).m_Objects.map objPositions).flatten.contains ((2 : Int), (2 : Int))
      = false ∧
    (lget (runState cfg43).m_INFO 2 []).map pixPos = [(2, 2)] := by
  refine ⟨by decide, by decide, ⟨by decide, by decide⟩, by decide, by decide⟩

/-! ## Claim C4: minimum-size filter keeps components of exactly `m` pixels -/

/-- C4: the spec claims a component whose true pixel count equals the
configured minimum appears in the result list.  The code violates this.  On
the 4-by-3 grid `.XX. / X..X / ..X.` the single foreground component has
exactly 5 pixels; with minimum size 5 the run is UB-free and emits nothing,
because the buggy fork/rejoin bookkeeping only ever presents a 4-pixel
fragment to the size filter in `WriteObject`. -/
theorem C4_code_eval :
    cfg43m5.m_npixelmin = 5 ∧
    (fgCells cfg43m5 = [(1, 0), (2, 0), (0, 1), (3, 1), (2, 2)] ∧
      connected8 [(1, 0), (2, 0), (0, 1), (3, 1), (2, 2)] = true) ∧
    (runState cfg43m5).ub = false ∧
    (runState cfg43m5).m_Objects = [] := by
  refine ⟨by decide, ⟨by decide, by decide⟩, by decide, by decide⟩

/-! ## Claim C5: auxiliary-array indices stay in bounds for every grid -/

/-- C5: the spec claims the saved-status stack index and the open-object
index stay inside the width-sized auxiliary arrays for every grid with
positive dimensions.  The code violates this already at width 1: on a 1-by-1
grid holding a single foreground pixel, `StartSegment` pushes `co` to
`1 = width` and writes `m_START[1]` and `m_INFO[1]`, one past the end of the
width-sized arrays (and `ProcessNewMarker`/`ModPSSTACK` follow up with a
write to `m_PSSTACK[1]`): the ghost undefined-behavior flag is raised.  A
background-only 1-by-1 grid stays in bounds. -/
theorem C5_code_eval :
    (runState cfg11).ub = true ∧
    (runState { cfg11 with m_image := some (imageOfList [0]) }).ub = false := by
  refine ⟨by decide, by decide⟩

/-! ## Claim C2, counterexample part: the U merge does not use the
start-minor branch -/

/-- C2 counterexample: on the concrete U grid `X.X / XXX` (3 wide, 2 tall)
the run is UB-free and does emit exactly one Object covering all five
foreground pixels, but the start-minor merge branch (marker `'s'` with
`CS == OBJECT` and `PS == COMPLETE`, the "pop one saved-status entry and
transfer the start position" step) executes **zero** times: the ghost
counter stays 0, refuting the claimed mechanism (the join actually happens
in the start-major `'S'` branch, which splices the pending `m_STORE`
fragment into the open slot while a segment is open). -/
theorem C2_counterexample :
    (runState cfgU32).ub = false ∧
    (runState cfgU32).m_Objects.map objPositions
      = [[(0, 0), (0, 1), (1, 1), (2, 0), (2, 1)]] ∧
    (runState cfgU32).sMergeCount = 0 := by
  refine ⟨by decide, by decide, by decide⟩

/-! ## Claim C7: configuration validation before scanning -/

/-- C7 counterexample: with a null image accessor and a zero-by-zero grid
(invalid by the spec's contract) `run()` raises nothing: it returns normally
(`Except.ok`), with an empty object list and no undefined behavior, instead
of surfacing a ConfigurationError before scanning.  (The source contains no
validation whatsoever.) -/
theorem C7_counterexample :
    run cfg00 = Except.ok (runState cfg00) ∧
    (runState cfg00).m_Objects = [] ∧
    (runState cfg00).ub = false := by
  refine ⟨rfl, by decide, by decide⟩

theorem StoreClearanceStep_id (cfg : lutzConfig) {n : Nat} (t : lutzState) (i : Nat)
    (ht : t.m_STORE = List.replicate n ([] : RawObject)) :
    StoreClearanceStep cfg t i = t := by
  unfold StoreClearanceStep
  have hget : lget t.m_STORE (i : Int) [] = [] := by
    rw [ht]; exact lget_replicate n [] i
  rw [hget]
  show ({ t with m_STORE := lset t.m_STORE (i : Int) [] } : lutzState) = t
  rw [ht, lset_replicate_self, ← ht]

theorem foldl_StoreClearanceStep_id (cfg : lutzConfig) {n : Nat} :
    ∀ (idxs : List Nat) (s : lutzState),
      s.m_STORE = List.replicate n ([] : RawObject) →
      idxs.foldl (StoreClearanceStep cfg) s = s
  | [], _, _ => rfl
  | i :: idxs, s, hs => by
    rw [List.foldl_cons, StoreClearanceStep_id cfg s i hs]
    exact foldl_StoreClearanceStep_id cfg idxs s hs

theorem StoreClearance_clean (cfg : lutzConfig) (s : lutzState) {n : Nat}
    (hs : s.m_STORE = List.replicate n ([] : RawObject)) :
    StoreClearance cfg s = s :=
  foldl_StoreClearanceStep_id cfg (List.range s.m_STORE.length) s hs

theorem bgStep_clean (cfg : lutzConfig) (x : Int) (s : lutzState)
    (hm : lget s.m_MARKER x mNone = mNone)
    (hok : lok s.m_MARKER x = true)
    (hCS : s.m_CS = .NONOBJECT) :
    bgStep cfg x s = s := by
  simp only [bgStep]
  rw [hm, hok, lset_of_lget_eq hm]
  simp [hCS]
  rw [← hCS]

theorem processRowEnd_eq_bgStep (cfg : lutzConfig) (s : lutzState)
    (hlen : s.m_MARKER.length = (cfg.m_xpix + 1).toNat) (hx : 0 ≤ cfg.m_xpix) :
    processRowEnd cfg s = bgStep cfg cfg.m_xpix s := by
  simp only [processRowEnd, bgStep]
  have hlast : ((s.m_MARKER.length : Int) - 1) = cfg.m_xpix := by
    rw [hlen]; omega
  have hne : s.m_MARKER.isEmpty = false := by
    cases hMe : s.m_MARKER with
    | nil => rw [hMe] at hlen; simp at hlen; omega
    | cons a l => rfl
  have hok : lok s.m_MARKER cfg.m_xpix = true := by
    refine lok_true hx ?_
    rw [hlen]; omega
  rw [hlast, hne, hok]
  rw [show (s.ub || false) = s.ub by simp, show (s.ub || !true) = s.ub by simp]

theorem processCol_bg (cfg : lutzConfig) (y x : Int) (s : lutzState)
    (himg : (GetPixValue cfg x y).2 = false)
    (hbg : ¬ (GetPixValue cfg x y).1 > cfg.m_threshold) :
    processCol cfg y x s = bgStep cfg x s := by
  simp only [processCol, bgStep]
  rw [if_neg hbg, himg]
  rw [show (s.ub || !lok s.m_MARKER x || false) = (s.ub || !lok s.m_MARKER x) by simp]

theorem processRow_w0 (cfg : lutzConfig) (hxw : cfg.m_xpix = 0) (y : Int)
    (s : lutzState) (hM : s.m_MARKER = [mNone])
    (hPS : s.m_PS = .COMPLETE) (hCS : s.m_CS = .NONOBJECT) :
    processRow cfg y s = s := by
  have hs0 : ({ s with m_PS := LUTZSTATUS.COMPLETE, m_CS := LUTZSTATUS.NONOBJECT } : lutzState)
      = s := by
    rw [← hPS, ← hCS]
  unfold processRow
  rw [hxw, hs0]
  show processRowEnd cfg (processColsAux cfg y (Int.toNat 0) 0 s) = s
  show processRowEnd cfg s = s
  rw [processRowEnd_eq_bgStep cfg s (by rw [hM, hxw]; rfl) (by omega)]
  refine bgStep_clean cfg cfg.m_xpix s ?_ ?_ hCS
  · rw [hM, hxw]; rfl
  · rw [hM, hxw]; rfl

theorem processRowsAux_w0 (cfg : lutzConfig) (hxw : cfg.m_xpix = 0) :
    ∀ (n : Nat) (y : Int) (s : lutzState), s.m_MARKER = [mNone] →
      s.m_PS = .COMPLETE → s.m_CS = .NONOBJECT →
      processRowsAux cfg n y s = s
  | 0, _, _, _, _, _ => rfl
  | n + 1, y, s, hM, hPS, hCS => by
    show processRowsAux cfg n (y + 1) (processRow cfg y s) = s
    rw [processRow_w0 cfg hxw y s hM hPS hCS]
    exact processRowsAux_w0 cfg hxw n (y + 1) s hM hPS hCS

/-- C7 amended: the source performs no configuration validation at all.  A
configuration with zero width, or with non-negative width and non-positive
height, makes `run()` return normally (`Except.ok`): the scan touches no
pixel, raises nothing, and yields an empty object list with no undefined
behavior.  (A null accessor with positive dimensions instead runs into a
null dereference *during* the scan — see `C7_counterexample` for the
null-and-empty case — rather than being rejected beforehand; a negative
width additionally makes the buffer allocations of `init_members`
ill-formed.) -/
theorem C7_amended (cfg : lutzConfig)
    (h : cfg.m_xpix = 0 ∨ (0 ≤ cfg.m_xpix ∧ cfg.m_ypix ≤ 0)) :
    run cfg = Except.ok (runState cfg) ∧
    (runState cfg).m_Objects = [] ∧ (runState cfg).ub = false := by
  refine ⟨rfl, ?_⟩
  have hx : 0 ≤ cfg.m_xpix := by
    rcases h with h0 | h1
    · omega
    · exact h1.1
  have hinit_ub : (init_members cfg).ub = false := by
    show decide (cfg.m_xpix < 0) = false
    exact decide_eq_false (by omega)
  have hrows : processRowsAux cfg cfg.m_ypix.toNat 0 (init_members cfg)
      = init_members cfg := by
    rcases h with h0 | ⟨h1, h2⟩
    · refine processRowsAux_w0 cfg h0 _ 0 _ ?_ rfl rfl
      show List.replicate (cfg.m_xpix + 1).toNat mNone = [mNone]
      rw [h0]
      rfl
    · rw [show cfg.m_ypix.toNat = 0 by omega]
      rfl
  have hsc : StoreClearance cfg (init_members cfg) = init_members cfg :=
    StoreClearance_clean cfg _ (n := cfg.m_xpix.toNat) rfl
  unfold runState
  rw [hrows, hsc]
  exact ⟨rfl, hinit_ub⟩

/-- C7 witness: the amended theorem applied to the concrete null, zero-size
configuration. -/
theorem C7_witness :
    (cfg00.m_xpix = 0 ∨ (0 ≤ cfg00.m_xpix ∧ cfg00.m_ypix ≤ 0)) ∧
    (run cfg00 = Except.ok (runState cfg00) ∧
      (runState cfg00).m_Objects = [] ∧ (runState cfg00).ub = false) :=
  ⟨Or.inl (by decide), C7_amended cfg00 (Or.inl (by decide))⟩

/-! ## Claim C8: bounds-checked object lookup -/

/-- C8 counterexample: `GetObject` is **not** bounds-checked.  With an empty
result list (`objectCount() = 0`) the query at index 0 is an unchecked
`std::vector::operator[]` access one past the end: undefined behavior, not a
reported index error (compare the spec-modelled `GetObject_spec`, which
reports `indexError` there).  No comparison against `NumObjects` appears in
the source's `GetObject`. -/
theorem C8_counterexample :
    NumObjects (runState cfg00) = 0 ∧
    GetObject (runState cfg00) 0 = CppResult.ub ∧
    GetObject_spec (runState cfg00) 0 = Except.error ScanError.indexError := by
  refine ⟨by decide, by decide, by rfl⟩

/-- C8 amended: `GetObject(i)` performs no bounds check.  For `i` inside
`[0, objectCount())` it returns the `i`-th stored Object; for every other
`i` the unchecked vector access has no defined result (undefined behavior),
and no index error is reported. -/
theorem C8_amended (s : lutzState) (i : Int) :
    (0 ≤ i ∧ i < NumObjects s →
      GetObject s i = CppResult.ok (s.m_Objects.getD i.toNat lutzObject.empty)) ∧
    (¬(0 ≤ i ∧ i < NumObjects s) → GetObject s i = CppResult.ub) := by
  constructor
  · rintro ⟨h0, h1⟩
    have hlt : i.toNat < s.m_Objects.length := by
      unfold NumObjects at h1
      omega
    unfold GetObject
    rw [dif_pos ⟨h0, hlt⟩]
    congr 1
    rw [List.getD_eq_getElem?_getD, List.getElem?_eq_getElem hlt]
    rfl
  · intro h
    unfold GetObject
    rw [dif_neg]
    rintro ⟨h0, h1⟩
    refine h ⟨h0, ?_⟩
    unfold NumObjects
    omega

/-- C8 witness: after the 4-by-3 run one object is stored; index 0 is
returned, index 5 is undefined behavior. -/
theorem C8_witness :
    GetObject (runState cfg43) 0
      = CppResult.ok ((runState cfg43).m_Objects.getD 0 lutzObject.empty) ∧
    GetObject (runState cfg43) 5 = CppResult.ub :=
  ⟨(C8_amended (runState cfg43) 0).1 ⟨by decide, by decide⟩,
   (C8_amended (runState cfg43) 5).2 (by decide)⟩

/-! ## Claim C9: weighted centroid and its fallback condition -/

/-- C9 counterexample: the fallback to the unweighted computation is taken
whenever the weighted denominator is **not positive**, not only when it is
zero.  For two pixels of values `-1` and `-3` (scales 1) at columns 0 and 3,
the weighted denominator is `-4 ≠ 0`; the claim demands the weighted average
`(9/4, 0)`, but the source falls back and returns the unweighted `(3/2, 0)`. -/
theorem C9_counterexample :
    lutzObject.centroidWSum objNegVals true = -4 ∧
    lutzObject.centroid 2 objNegVals true = some (3 / 2, 0) ∧
    lutzObject.centroid 2 objNegVals true
      ≠ some (lutzObject.centroidXSum objNegVals true / lutzObject.centroidWSum objNegVals true,
              lutzObject.centroidYSum objNegVals true / lutzObject.centroidWSum objNegVals true) := by
  have hpix : objNegVals.m_pixInfo = [pixData.mkP 0 0 (-1), pixData.mkP 3 0 (-3)] := by rfl
  have hw : lutzObject.centroidWSum objNegVals true = -4 := by
    norm_num [lutzObject.centroidWSum, lutzObject.centroidWeight, hpix, pixData.mkP]
  have hwf : lutzObject.centroidWSum objNegVals false = 2 := by
    norm_num [lutzObject.centroidWSum, lutzObject.centroidWeight, hpix, pixData.mkP]
  have hxf : lutzObject.centroidXSum objNegVals false = 3 := by
    norm_num [lutzObject.centroidXSum, lutzObject.centroidWeight, hpix, pixData.mkP]
  have hyf : lutzObject.centroidYSum objNegVals false = 0 := by
    simp [lutzObject.centroidYSum, lutzObject.centroidWeight, hpix, pixData.mkP]
  have hx : lutzObject.centroidXSum objNegVals true = -9 := by
    norm_num [lutzObject.centroidXSum, lutzObject.centroidWeight, hpix, pixData.mkP]
  have hy : lutzObject.centroidYSum objNegVals true = 0 := by
    simp [lutzObject.centroidYSum, lutzObject.centroidWeight, hpix, pixData.mkP]
  have hc : lutzObject.centroid 2 objNegVals true = some (3 / 2, 0) := by
    show (if 0 < lutzObject.centroidWSum objNegVals true then _ else _) = _
    rw [if_neg (by rw [hw]; norm_num)]
    show (if 0 < lutzObject.centroidWSum objNegVals false then _ else _) = _
    rw [if_pos (by rw [hwf]; norm_num)]
    rw [hwf, hxf, hyf]
    norm_num
  refine ⟨hw, hc, ?_⟩
  rw [hc, hw, hx, hy]
  intro hcontra
  have h2 : (3 / 2 : ℚ) = -9 / -4 := congrArg Prod.fst (Option.some.inj hcontra)
  norm_num at h2

/-- C9 amended: with `weight_bins = true`, `centroid` returns the
value-weighted average exactly when the weighted denominator is strictly
positive; whenever that denominator is `≤ 0` (zero **or negative**) it falls
back to the unweighted computation. -/
theorem C9_amended (o : lutzObject) (n : Nat) :
    (0 < lutzObject.centroidWSum o true →
      lutzObject.centroid (n + 1) o true
        = some (lutzObject.centroidXSum o true / lutzObject.centroidWSum o true,
                lutzObject.centroidYSum o true / lutzObject.centroidWSum o true)) ∧
    (lutzObject.centroidWSum o true ≤ 0 →
      lutzObject.centroid (n + 1) o true = lutzObject.centroid n o false) := by
  constructor
  · intro h
    show (if 0 < lutzObject.centroidWSum o true then _ else _) = _
    rw [if_pos h]
  · intro h
    show (if 0 < lutzObject.centroidWSum o true then _ else _) = _
    rw [if_neg (not_lt.mpr h)]

/-- C9 witness: the amended theorem at a positive-denominator object and at
the negative-denominator counterexample object. -/
theorem C9_witness :
    (lutzObject.centroid 2 objPos true
        = some (lutzObject.centroidXSum objPos true / lutzObject.centroidWSum objPos true,
                lutzObject.centroidYSum objPos true / lutzObject.centroidWSum objPos true)) ∧
    (lutzObject.centroid 2 objNegVals true = lutzObject.centroid 1 objNegVals false) :=
  ⟨(C9_amended objPos 1).1 (by
      have hpix : objPos.m_pixInfo = [pixData.mkP 3 4 2] := by rfl
      norm_num [lutzObject.centroidWSum, lutzObject.centroidWeight, hpix, pixData.mkP]),
   (C9_amended objNegVals 1).2 (by
      have hpix : objNegVals.m_pixInfo = [pixData.mkP 0 0 (-1), pixData.mkP 3 0 (-3)] := by rfl
      norm_num [lutzObject.centroidWSum, lutzObject.centroidWeight, hpix, pixData.mkP])⟩

/-! ## Claim C10: centroid termination under a positive weight-scale -/

/-- C10 counterexample: a pixel with strictly positive weight-scale does not
make the unweighted denominator positive — scales `2` and `-3` sum to `-1` —
and then `centroid` does not terminate in either mode: the claim's budget of
"at most one fallback" (fuel 2 in the model: the initial call plus one
fallback) returns nothing, and neither does any larger fuel (each recursive
call repeats `centroid(x, y, false)` with unchanged state). -/
theorem C10_counterexample :
    objMixedScale.m_pixInfo.any (fun p => decide (0 < p.m_scale)) = true ∧
    lutzObject.centroidWSum objMixedScale false = -1 ∧
    lutzObject.centroid 2 objMixedScale false = none ∧
    lutzObject.centroid 2 objMixedScale true = none ∧
    lutzObject.centroid 9 objMixedScale true = none := by
  have hwf : lutzObject.centroidWSum objMixedScale false = -1 := by
    norm_num [lutzObject.centroidWSum, lutzObject.centroidWeight, objMixedScale]
  have hwt : lutzObject.centroidWSum objMixedScale true = 0 := by
    simp [lutzObject.centroidWSum, lutzObject.centroidWeight, objMixedScale]
  have hfalse : ∀ n, lutzObject.centroid n objMixedScale false = none := by
    intro n
    induction n with
    | zero => rfl
    | succ n ih =>
      show (if 0 < lutzObject.centroidWSum objMixedScale false then _ else _) = _
      rw [if_neg (by rw [hwf]; norm_num)]
      exact ih
  have hq : objMixedScale.m_pixInfo.any (fun p => decide (0 < p.m_scale)) = true := by
    show (decide ((0 : ℚ) < 2) || _) = true
    rw [decide_eq_true (by norm_num : (0 : ℚ) < 2)]
    rfl
  refine ⟨hq, hwf, hfalse 2, ?_, ?_⟩ <;>
  · show (if 0 < lutzObject.centroidWSum objMixedScale true then _ else _) = _
    rw [if_neg (by rw [hwt]; norm_num)]
    exact hfalse _

/-- C10 amended: when the **sum** of the pixels' weight-scales is strictly
positive, `centroid` terminates in both modes within at most one fallback
(fuel 2: the original call plus one possible recursive call with
`weight_bins = false`). -/
theorem C10_amended (o : lutzObject) (wb : Bool)
    (h : 0 < lutzObject.centroidWSum o false) :
    (lutzObject.centroid 2 o wb).isSome = true := by
  cases wb
  · show ((if 0 < lutzObject.centroidWSum o false then _ else _ : Option (ℚ × ℚ))).isSome = true
    rw [if_pos h]
    rfl
  · by_cases hw : 0 < lutzObject.centroidWSum o true
    · show ((if 0 < lutzObject.centroidWSum o true then _ else _ : Option (ℚ × ℚ))).isSome = true
      rw [if_pos hw]
      rfl
    · show ((if 0 < lutzObject.centroidWSum o true then _ else _ : Option (ℚ × ℚ))).isSome = true
      rw [if_neg hw]
      show ((if 0 < lutzObject.centroidWSum o false then _ else _ : Option (ℚ × ℚ))).isSome = true
      rw [if_pos h]
      rfl

/-- C10 witness: the amended theorem at the single positive pixel object, in
both modes. -/
theorem C10_witness :
    0 < lutzObject.centroidWSum objPos false ∧
    (lutzObject.centroid 2 objPos true).isSome = true ∧
    (lutzObject.centroid 2 objPos false).isSome = true := by
  have h : 0 < lutzObject.centroidWSum objPos false := by
    have hpix : objPos.m_pixInfo = [pixData.mkP 3 4 2] := by rfl
    simp [lutzObject.centroidWSum, lutzObject.centroidWeight, hpix, pixData.mkP]
  exact ⟨h, C10_amended objPos true h, C10_amended objPos false h⟩

/-! ## Claim C6: the summary-field invariant of `lutzObject` -/

theorem minList_append [LinearOrder α] (l : List α) (m x : α)
    (h : minList l = some m) : minList (l ++ [x]) = some (min m x) := by
  cases l with
  | nil => exact absurd h (by simp [minList])
  | cons a as =>
    simp only [minList, Option.some.injEq] at h
    simp only [List.cons_append, minList, List.foldl_append, List.foldl_cons,
      List.foldl_nil, Option.some.injEq]
    rw [h]

theorem maxList_append [LinearOrder α] (l : List α) (m x : α)
    (h : maxList l = some m) : maxList (l ++ [x]) = some (max m x) := by
  cases l with
  | nil => exact absurd h (by simp [maxList])
  | cons a as =>
    simp only [maxList, Option.some.injEq] at h
    simp only [List.cons_append, maxList, List.foldl_append, List.foldl_cons,
      List.foldl_nil, Option.some.injEq]
    rw [h]

theorem ite_lt_min [LinearOrder α] (a b : α) : (if a < b then a else b) = min b a := by
  split
  · next h => exact (min_eq_right h.le).symm
  · next h => exact (min_eq_left (not_lt.mp h)).symm

theorem ite_gt_max [LinearOrder α] (a b : α) : (if a > b then a else b) = max b a := by
  split
  · next h => exact (max_eq_right h.le).symm
  · next h => exact (max_eq_left (not_lt.mp h)).symm

theorem append_not_contains (o : lutzObject) (p : pixData)
    (h : ¬ o.contains p = true) :
    o.append p =
      { m_xmin := if p.m_xbin < o.m_xmin then p.m_xbin else o.m_xmin
        m_xmax := if p.m_xbin > o.m_xmax then p.m_xbin else o.m_xmax
        m_ymin := if p.m_ybin < o.m_ymin then p.m_ybin else o.m_ymin
        m_ymax := if p.m_ybin > o.m_ymax then p.m_ybin else o.m_ymax
        m_value_min := if p.m_value < o.m_value_min then p.m_value else o.m_value_min
        m_value_max := if p.m_value > o.m_value_max then p.m_value else o.m_value_max
        m_pixInfo := o.m_pixInfo ++ [p]
        m_value_sum := o.m_value_sum + p.m_value } := by
  unfold lutzObject.append
  rw [if_neg h]

theorem objInv_append {o : lutzObject} {p : pixData} (ho : objInv o)
    (hp : pixInRange p) : objInv (o.append p) := by
  by_cases hc : o.contains p = true
  · unfold lutzObject.append
    rw [if_pos hc]
    exact ho
  · obtain ⟨hx1, hx2, hy1, hy2, hv1, hv2⟩ := hp
    rcases ho with ⟨hemp, hempty⟩ | ⟨hne, hagg⟩
    · subst hempty
      rw [append_not_contains _ _ hc]
      right
      refine ⟨by simp, ?_⟩
      have ex : (if p.m_xbin < lutzObject.empty.m_xmin then p.m_xbin
          else lutzObject.empty.m_xmin) = p.m_xbin := by
        show (if p.m_xbin < 10000000 then p.m_xbin else (10000000 : Int)) = p.m_xbin
        split
        · rfl
        · omega
      have ex2 : (if p.m_xbin > lutzObject.empty.m_xmax then p.m_xbin
          else lutzObject.empty.m_xmax) = p.m_xbin := by
        show (if p.m_xbin > -10000000 then p.m_xbin else (-10000000 : Int)) = p.m_xbin
        split
        · rfl
        · omega
      have ey : (if p.m_ybin < lutzObject.empty.m_ymin then p.m_ybin
          else lutzObject.empty.m_ymin) = p.m_ybin := by
        show (if p.m_ybin < 10000000 then p.m_ybin else (10000000 : Int)) = p.m_ybin
        split
        · rfl
        · omega
      have ey2 : (if p.m_ybin > lutzObject.empty.m_ymax then p.m_ybin
          else lutzObject.empty.m_ymax) = p.m_ybin := by
        show (if p.m_ybin > -10000000 then p.m_ybin else (-10000000 : Int)) = p.m_ybin
        split
        · rfl
        · omega
      have ev : (if p.m_value < lutzObject.empty.m_value_min then p.m_value
          else lutzObject.empty.m_value_min) = p.m_value := by
        show (if p.m_value < 10 ^ 30 then p.m_value else ((10: ℚ) ^ 30)) = p.m_value
        split
        · rfl
        · next hlt => exact le_antisymm (not_lt.mp hlt) hv1
      have ev2 : (if p.m_value > lutzObject.empty.m_value_max then p.m_value
          else lutzObject.empty.m_value_max) = p.m_value := by
        show (if p.m_value > -(10 ^ 30) then p.m_value else (-((10: ℚ) ^ 30))) = p.m_value
        split
        · rfl
        · next hlt => exact le_antisymm hv2 (not_lt.mp hlt)
      unfold objAggOK
      rw [hemp]
      simp only [List.nil_append, List.map_cons, List.map_nil, List.sum_cons,
        List.sum_nil, minList, maxList, List.foldl_nil]
      exact ⟨by rw [ex], by rw [ex2], by rw [ey], by rw [ey2], by rw [ev], by rw [ev2],
        by show p.m_value + 0 = lutzObject.empty.m_value_sum + p.m_value
           simp [lutzObject.empty, lutzObject.clear]⟩
    · rw [append_not_contains _ _ hc]
      right
      obtain ⟨a1, a2, a3, a4, a5, a6, a7⟩ := hagg
      refine ⟨by simp, ?_, ?_, ?_, ?_, ?_, ?_, ?_⟩
      · show minList ((o.m_pixInfo ++ [p]).map pixData.m_xbin)
            = some (if p.m_xbin < o.m_xmin then p.m_xbin else o.m_xmin)
        rw [List.map_append]
        show minList (o.m_pixInfo.map pixData.m_xbin ++ [p.m_xbin]) = _
        rw [minList_append _ _ _ a1, ite_lt_min]
      · show maxList ((o.m_pixInfo ++ [p]).map pixData.m_xbin)
            = some (if p.m_xbin > o.m_xmax then p.m_xbin else o.m_xmax)
        rw [List.map_append]
        show maxList (o.m_pixInfo.map pixData.m_xbin ++ [p.m_xbin]) = _
        rw [maxList_append _ _ _ a2, ite_gt_max]
      · show minList ((o.m_pixInfo ++ [p]).map pixData.m_ybin)
            = some (if p.m_ybin < o.m_ymin then p.m_ybin else o.m_ymin)
        rw [List.map_append]
        show minList (o.m_pixInfo.map pixData.m_ybin ++ [p.m_ybin]) = _
        rw [minList_append _ _ _ a3, ite_lt_min]
      · show maxList ((o.m_pixInfo ++ [p]).map pixData.m_ybin)
            = some (if p.m_ybin > o.m_ymax then p.m_ybin else o.m_ymax)
        rw [List.map_append]
        show maxList (o.m_pixInfo.map pixData.m_ybin ++ [p.m_ybin]) = _
        rw [maxList_append _ _ _ a4, ite_gt_max]
      · show minList ((o.m_pixInfo ++ [p]).map pixData.m_value)
            = some (if p.m_value < o.m_value_min then p.m_value else o.m_value_min)
        rw [List.map_append]
        show minList (o.m_pixInfo.map pixData.m_value ++ [p.m_value]) = _
        rw [minList_append _ _ _ a5, ite_lt_min]
      · show maxList ((o.m_pixInfo ++ [p]).map pixData.m_value)
            = some (if p.m_value > o.m_value_max then p.m_value else o.m_value_max)
        rw [List.map_append]
        show maxList (o.m_pixInfo.map pixData.m_value ++ [p.m_value]) = _
        rw [maxList_append _ _ _ a6, ite_gt_max]
      · show ((o.m_pixInfo ++ [p]).map pixData.m_value).sum = o.m_value_sum + p.m_value
        rw [List.map_append, List.sum_append, a7]
        show o.m_value_sum + (p.m_value + 0) = o.m_value_sum + p.m_value
        rw [add_zero]

theorem objInv_applyOp {o : lutzObject} (ho : objInv o) (op : ObjOp)
    (hop : opInRange op) : objInv (applyOp o op) := by
  cases op with
  | app p => exact objInv_append ho hop
  | clr => exact Or.inl ⟨rfl, rfl⟩

theorem objInv_foldl : ∀ (ops : List ObjOp) (o : lutzObject), objInv o →
    (∀ op ∈ ops, opInRange op) → objInv (ops.foldl applyOp o)
  | [], _, ho, _ => ho
  | op :: ops, o, ho, hops => by
    rw [List.foldl_cons]
    exact objInv_foldl ops _ (objInv_applyOp ho op (hops op (by simp)))
      (fun q hq => hops q (by simp [hq]))

/-- C6 counterexample: `remove` breaks the summary invariant.  Appending
pixels `(0,0,value 1)` and `(1,0,value 2)` and then removing index 1 leaves
`m_xmax = 1` and `m_value_max = 2`, while the remaining pixel set `[(0,0,1)]`
has maximal column 0 and maximal value 1 — the source's `remove` updates only
the running sum. -/
theorem C6_counterexample :
    objRemove.m_pixInfo = [pixData.mkP 0 0 1] ∧
    objRemove.m_xmax = 1 ∧
    maxList (objRemove.m_pixInfo.map pixData.m_xbin) = some 0 ∧
    objRemove.m_value_max = 2 ∧
    maxList (objRemove.m_pixInfo.map pixData.m_value) = some 1 ∧
    ¬ objAggOK objRemove := by
  have hpix : objRemove.m_pixInfo = [pixData.mkP 0 0 1] := by rfl
  have hxmax : objRemove.m_xmax = 1 := by decide
  have hvmax : objRemove.m_value_max = 2 := by
    norm_num [objRemove, lutzObject.remove, lutzObject.append, lutzObject.contains,
      lutzObject.empty, lutzObject.clear, pixData.mkP]
  refine ⟨hpix, hxmax, by rw [hpix]; rfl, hvmax, by rw [hpix]; rfl, ?_⟩
  intro hagg
  have h2 := hagg.2.1
  rw [hpix, hxmax] at h2
  exact absurd (Option.some.inj h2) (by decide)

/-- C6 amended: the summary fields equal the aggregates over the pixel set
after every sequence of `append` and `clear` operations whose pixels keep
within the sentinel bounds (positions within `±10^7`, values within
`±10^30`, as hard-coded by `clear()`); and appending a pixel at an existing
position is unconditionally a no-op for the pixel set and every summary
field.  `remove`, however, maintains only the running value sum, so the
min/max summary fields can go stale after it (see the counterexample). -/
theorem C6_amended (ops : List ObjOp) (hops : ∀ op ∈ ops, opInRange op) :
    ((applyOps ops).m_pixInfo ≠ [] → objAggOK (applyOps ops)) ∧
    (∀ (o : lutzObject) (p : pixData), o.contains p = true → o.append p = o) := by
  constructor
  · intro hne
    rcases objInv_foldl ops lutzObject.empty (Or.inl ⟨rfl, rfl⟩) hops with ⟨h1, _⟩ | ⟨_, h2⟩
    · exact absurd h1 hne
    · exact h2
  · intro o p h
    unfold lutzObject.append
    rw [if_pos h]

/-- C6 witness: the amended invariant at a concrete two-append sequence. -/
theorem C6_witness :
    opInRange (ObjOp.app (pixData.mkP 0 0 1)) ∧
    opInRange (ObjOp.app (pixData.mkP 1 0 2)) ∧
    objAggOK (applyOps [ObjOp.app (pixData.mkP 0 0 1), ObjOp.app (pixData.mkP 1 0 2)]) := by
  have h1 : opInRange (ObjOp.app (pixData.mkP 0 0 1)) := by
    norm_num [opInRange, pixInRange, pixData.mkP]
  have h2 : opInRange (ObjOp.app (pixData.mkP 1 0 2)) := by
    norm_num [opInRange, pixInRange, pixData.mkP]
  refine ⟨h1, h2, ?_⟩
  refine (C6_amended [ObjOp.app (pixData.mkP 0 0 1), ObjOp.app (pixData.mkP 1 0 2)] ?_).1
    (by decide)
  intro op hop
  simp only [List.mem_cons, List.not_mem_nil, or_false] at hop
  rcases hop with h | h
  · rw [h]; exact h1
  · rw [h]; exact h2

/-! ## Claim C2, amended part: parametric verification of the U-shape scan -/

theorem getPix_cfgU (w h x1 x2 y0 y1 x y : Int) (hx : 0 ≤ x) (hxw : x < w) :
    GetPixValue (cfgU w h x1 x2 y0 y1) x y = (fU x1 x2 y0 y1 x y, false) := by
  show (pix2im w (fU x1 x2 y0 y1) (w * y + x), false) = _
  unfold pix2im
  have hw0 : w ≠ 0 := by omega
  have hmod : (w * y + x) % w = x := by
    rw [Int.add_comm, Int.add_mul_emod_self_left]
    exact Int.emod_eq_of_lt hx hxw
  have hdiv : (w * y + x) / w = y := by
    rw [Int.add_comm, Int.add_mul_ediv_left x y hw0]
    rw [Int.ediv_eq_zero_of_lt hx hxw]
    omega
  rw [hmod, hdiv]

theorem fU_pos_iff (x1 x2 y0 y1 x y : Int) :
    0 < fU x1 x2 y0 y1 x y ↔
      ((y0 ≤ y ∧ y < y1 ∧ (x = x1 ∨ x = x2)) ∨ (y = y1 ∧ x1 ≤ x ∧ x ≤ x2)) := by
  unfold fU
  split
  · next hc => simpa using hc
  · next hc => simpa using hc

theorem fU_eq_zero {x1 x2 y0 y1 x y : Int}
    (h : ¬ ((y0 ≤ y ∧ y < y1 ∧ (x = x1 ∨ x = x2)) ∨ (y = y1 ∧ x1 ≤ x ∧ x ≤ x2))) :
    fU x1 x2 y0 y1 x y = 0 := by
  unfold fU
  rw [if_neg h]

theorem fU_eq_one {x1 x2 y0 y1 x y : Int}
    (h : (y0 ≤ y ∧ y < y1 ∧ (x = x1 ∨ x = x2)) ∨ (y = y1 ∧ x1 ≤ x ∧ x ≤ x2)) :
    fU x1 x2 y0 y1 x y = 1 := by
  unfold fU
  rw [if_pos h]

theorem segBG (w h x1 x2 y0 y1 : Int) (y : Int) :
    ∀ (n : Nat) (x : Int) (s : lutzState),
      s.m_CS = .NONOBJECT →
      s.m_MARKER.length = (w + 1).toNat →
      (∀ k : Nat, k < n → lget s.m_MARKER (x + k) mNone = mNone) →
      (∀ k : Nat, k < n → fU x1 x2 y0 y1 (x + k) y = 0) →
      0 ≤ x → x + n ≤ w →
      processColsAux (cfgU w h x1 x2 y0 y1) y n x s = s
  | 0, _, _, _, _, _, _, _, _ => rfl
  | n + 1, x, s, hCS, hlen, hm, hbg, hx0, hxn => by
    show processColsAux _ y n (x + 1) (processCol _ y x s) = s
    have hxw : x < w := by omega
    have hpc : processCol (cfgU w h x1 x2 y0 y1) y x s = s := by
      rw [processCol_bg]
      · refine bgStep_clean _ x s ?_ ?_ hCS
        · have h0 := hm 0 (by omega)
          simpa using h0
        · exact lok_true hx0 (by rw [hlen]; omega)
      · rw [getPix_cfgU w h x1 x2 y0 y1 x y hx0 hxw]
      · rw [getPix_cfgU w h x1 x2 y0 y1 x y hx0 hxw]
        have h0 := hbg 0 (by omega)
        norm_num at h0
        show ¬ fU x1 x2 y0 y1 x y > (0 : ℚ)
        rw [h0]
        simp
    rw [hpc]
    refine segBG w h x1 x2 y0 y1 y n (x + 1) s hCS hlen ?_ ?_ (by omega) (by omega)
    · intro k hk
      have hs := hm (k + 1) (by omega)
      push_cast at hs
      rw [show x + ((k : Int) + 1) = x + 1 + (k : Int) by ring] at hs
      exact hs
    · intro k hk
      have hs := hbg (k + 1) (by omega)
      push_cast at hs
      rw [show x + ((k : Int) + 1) = x + 1 + (k : Int) by ring] at hs
      exact hs

theorem lok_elim {l : List α} {i : Int} (h : lok l i = true) :
    0 ≤ i ∧ i.toNat < l.length := by
  unfold lok at h
  simp only [Bool.and_eq_true, decide_eq_true_eq] at h
  omega

theorem rowPixList_succ (a y : Int) (n : Nat) :
    rowPixList a y (n + 1) = pixData.mkP a y 1 :: rowPixList (a + 1) y n := by
  unfold rowPixList
  rw [List.range_succ_eq_map]
  simp only [List.map_cons, List.map_map, Nat.cast_zero, add_zero, List.cons.injEq]
  refine ⟨trivial, ?_⟩
  refine List.map_congr_left ?_
  intro i _
  show pixData.mkP (a + ((i : Int) + 1)) y 1 = pixData.mkP (a + 1 + (i : Int)) y 1
  rw [show a + ((i : Int) + 1) = a + 1 + (i : Int) by ring]

theorem barPixList_succ (c y0 : Int) (k : Nat) :
    barPixList c y0 (k + 1) = barPixList c y0 k ++ [pixData.mkP c (y0 + k) 1] := by
  unfold barPixList
  rw [List.range_succ]
  rw [List.map_append]
  rfl

theorem processColsAux_add (cfg : lutzConfig) (y : Int) (m n : Nat) :
    ∀ (x : Int) (s : lutzState),
      processColsAux cfg y (m + n) x s
        = processColsAux cfg y n (x + (m : Int)) (processColsAux cfg y m x s) := by
  induction m with
  | zero =>
    intro x s
    norm_num
    rfl
  | succ k ih =>
    intro x s
    rw [show k + 1 + n = (k + n) + 1 by omega]
    show processColsAux cfg y (k + n) (x + 1) (processCol cfg y x s) = _
    rw [ih (x + 1) (processCol cfg y x s)]
    have hcast : x + ((k + 1 : Nat) : Int) = x + 1 + (k : Int) := by push_cast; ring
    rw [hcast]
    rfl

theorem processRowsAux_add (cfg : lutzConfig) (m n : Nat) :
    ∀ (y : Int) (s : lutzState),
      processRowsAux cfg (m + n) y s
        = processRowsAux cfg n (y + (m : Int)) (processRowsAux cfg m y s) := by
  induction m with
  | zero =>
    intro y s
    norm_num
    rfl
  | succ k ih =>
    intro y s
    rw [show k + 1 + n = (k + n) + 1 by omega]
    show processRowsAux cfg (k + n) (y + 1) (processRow cfg y s) = _
    rw [ih (y + 1) (processRow cfg y s)]
    have hcast : y + ((k + 1 : Nat) : Int) = y + 1 + (k : Int) := by push_cast; ring
    rw [hcast]
    rfl

theorem segFG (w h x1 x2 y0 y1 : Int) (y : Int) :
    ∀ (n : Nat) (x : Int) (s : lutzState),
      s.m_CS = .OBJECT →
      s.m_MARKER.length = (w + 1).toNat →
      (∀ k : Nat, k < n → lget s.m_MARKER (x + k) mNone = mNone) →
      (∀ k : Nat, k < n → fU x1 x2 y0 y1 (x + k) y = 1) →
      0 ≤ x → x + n ≤ w →
      lok s.m_INFO s.co = true →
      processColsAux (cfgU w h x1 x2 y0 y1) y n x s
        = { s with m_INFO := lset s.m_INFO s.co (lget s.m_INFO s.co [] ++ rowPixList x y n) }
  | 0, x, s, _, _, _, _, _, _, _ => by
    show s = { s with m_INFO := lset s.m_INFO s.co (lget s.m_INFO s.co [] ++ rowPixList x y 0) }
    rw [show rowPixList x y 0 = [] from rfl, List.append_nil, lset_of_lget_eq rfl]
  | n + 1, x, s, hCS, hlenM, hm, hfg, hx0, hxn, hco => by
    show processColsAux _ y n (x + 1) (processCol _ y x s) = _
    have hxw : x < w := by omega
    obtain ⟨hco0, hcoLt⟩ := lok_elim hco
    have hm0 : lget s.m_MARKER x mNone = mNone := by
      have hs := hm 0 (by omega)
      norm_num at hs
      exact hs
    have h1 : fU x1 x2 y0 y1 x y = 1 := by
      have hs := hfg 0 (by omega)
      norm_num at hs
      exact hs
    have hlokM : lok s.m_MARKER x = true := lok_true hx0 (by rw [hlenM]; omega)
    have hthr : (cfgU w h x1 x2 y0 y1).m_threshold = 0 := rfl
    have hpc : processCol (cfgU w h x1 x2 y0 y1) y x s
        = { s with m_INFO := (lset s.m_INFO s.co (lget s.m_INFO s.co [] ++ [pixData.mkP x y 1])) } := by
      simp [processCol, getPix_cfgU w h x1 x2 y0 y1 x y hx0 hxw, h1, hthr, hCS, hm0,
        hlokM, hco, lset_of_lget_eq hm0, pixData.mkP]
    rw [hpc]
    have hrec := segFG w h x1 x2 y0 y1 y n (x + 1)
      ({ s with m_INFO := (lset s.m_INFO s.co (lget s.m_INFO s.co [] ++ [pixData.mkP x y 1])) })
      hCS hlenM
      (fun k hk => by
        have hs := hm (k + 1) (by omega)
        push_cast at hs
        rw [show x + ((k : Int) + 1) = x + 1 + (k : Int) by ring] at hs
        exact hs)
      (fun k hk => by
        have hs := hfg (k + 1) (by omega)
        push_cast at hs
        rw [show x + ((k : Int) + 1) = x + 1 + (k : Int) by ring] at hs
        exact hs)
      (by omega) (by push_cast at hxn ⊢; omega)
      (by
        show lok (lset s.m_INFO s.co (lget s.m_INFO s.co [] ++ [pixData.mkP x y 1])) s.co = true
        rw [lok_lset]
        exact hco)
    rw [hrec]
    simp only [lget_lset_self hco0 hcoLt, lset_lset_self, List.append_assoc,
      List.singleton_append]
    rw [show pixData.mkP x y 1 :: rowPixList (x + 1) y n = rowPixList x y (n + 1) from
      (rowPixList_succ x y n).symm]

theorem lok_replicate (n : Nat) (d : α) (i : Int) (h0 : 0 ≤ i) (h1 : i < (n : Int)) :
    lok (List.replicate n d) i = true :=
  lok_true h0 (by rw [List.length_replicate]; exact h1)

theorem processColsAux_one (cfg : lutzConfig) (y x : Int) (s : lutzState) :
    processColsAux cfg y 1 x s = processCol cfg y x s := rfl

/-- First bar row of a U-shape scan (no markers present yet): from the clean
state it produces the four-marker pattern and caches the two first bar
pixels in `m_STORE`. -/
theorem rowBarFirst (w h x1 x2 y0 y1 y : Int)
    (hx1 : 0 ≤ x1) (h12 : x1 + 2 ≤ x2) (h2w : x2 + 1 ≤ w)
    (hy : y0 ≤ y) (hyy : y < y1) :
    processRow (cfgU w h x1 x2 y0 y1) y (uCleanState w [])
      = uBarState w x1 x2 [pixData.mkP x1 y 1] [pixData.mkP x2 y 1] := by
  have hfx1 : fU x1 x2 y0 y1 x1 y = 1 := fU_eq_one (Or.inl ⟨hy, hyy, Or.inl rfl⟩)
  have hfx2 : fU x1 x2 y0 y1 x2 y = 1 := fU_eq_one (Or.inl ⟨hy, hyy, Or.inr rfl⟩)
  have hthr : (cfgU w h x1 x2 y0 y1).m_threshold = 0 := rfl
  have lokP0 : lok (List.replicate w.toNat LUTZSTATUS.COMPLETE) 0 = true :=
    lok_replicate _ _ _ (by omega) (by omega)
  have lokP1 : lok (List.replicate w.toNat LUTZSTATUS.COMPLETE) 1 = true :=
    lok_replicate _ _ _ (by omega) (by omega)
  have lokS1 : lok (List.replicate w.toNat (-1 : Int)) 1 = true :=
    lok_replicate _ _ _ (by omega) (by omega)
  have lokI1 : lok (List.replicate w.toNat ([] : RawObject)) 1 = true :=
    lok_replicate _ _ _ (by omega) (by omega)
  have lokO1 : lok (List.replicate w.toNat ([] : RawObject)) x1 = true :=
    lok_replicate _ _ _ (by omega) (by omega)
  have lokO2 : lok (List.replicate w.toNat ([] : RawObject)) x2 = true :=
    lok_replicate _ _ _ (by omega) (by omega)
  have hInfoLen : ((List.replicate w.toNat ([] : RawObject)).length : Int) = w := by
    rw [List.length_replicate]; omega
  have hStartLen : ((List.replicate w.toNat (-1 : Int)).length : Int) = w := by
    rw [List.length_replicate]; omega
  have hB : processCol (cfgU w h x1 x2 y0 y1) y x1 (uCleanState w []) =
      { m_MARKER := lset (List.replicate (w + 1).toNat mNone) x1 'S'
        m_PSSTACK := List.replicate w.toNat LUTZSTATUS.COMPLETE
        m_START := lset (List.replicate w.toNat (-1)) 1 x1
        m_END := List.replicate w.toNat (-1)
        m_INFO := lset (List.replicate w.toNat []) 1 [pixData.mkP x1 y 1]
        m_STORE := List.replicate w.toNat []
        m_Objects := []
        m_PS := LUTZSTATUS.COMPLETE
        m_CS := LUTZSTATUS.OBJECT
        co := 1
        pstop := 1
        ub := false
        sMergeCount := 0 } := by
    have lokM : lok (List.replicate (w + 1).toNat mNone) x1 = true :=
      lok_replicate _ _ _ (by omega) (by omega)
    simp [processCol, StartSegment, ModOBSTACK, ModPSSTACK, uCleanState,
      getPix_cfgU w h x1 x2 y0 y1 x1 y (by omega) (by omega), hfx1, hthr,
      lokM, lokP0, lokS1, lokI1, lget_replicate, lset_replicate_self, lok_lset,
      lset_lset_self, pixData.mkP]
  have hC : processCol (cfgU w h x1 x2 y0 y1) y (x1 + 1)
      { m_MARKER := lset (List.replicate (w + 1).toNat mNone) x1 'S'
        m_PSSTACK := List.replicate w.toNat LUTZSTATUS.COMPLETE
        m_START := lset (List.replicate w.toNat (-1)) 1 x1
        m_END := List.replicate w.toNat (-1)
        m_INFO := lset (List.replicate w.toNat []) 1 [pixData.mkP x1 y 1]
        m_STORE := List.replicate w.toNat []
        m_Objects := []
        m_PS := LUTZSTATUS.COMPLETE
        m_CS := LUTZSTATUS.OBJECT
        co := 1
        pstop := 1
        ub := false
        sMergeCount := 0 } =
      { m_MARKER := lset (lset (List.replicate (w + 1).toNat mNone) x1 'S') (x1 + 1) 'F'
        m_PSSTACK := List.replicate w.toNat LUTZSTATUS.COMPLETE
        m_START := List.replicate w.toNat (-1)
        m_END := List.replicate w.toNat (-1)
        m_INFO := List.replicate w.toNat []
        m_STORE := lset (List.replicate w.toNat []) x1 [pixData.mkP x1 y 1]
        m_Objects := []
        m_PS := LUTZSTATUS.COMPLETE
        m_CS := LUTZSTATUS.NONOBJECT
        co := 0
        pstop := 0
        ub := false
        sMergeCount := 0 } := by
    have hf0 : fU x1 x2 y0 y1 (x1 + 1) y = 0 := fU_eq_zero (by omega)
    have hmR : lget (lset (List.replicate (w + 1).toNat mNone) x1 'S') (x1 + 1) mNone
        = mNone := by
      rw [lget_lset_ne (by omega) _ _ _ (by omega)]
      exact lget_replicate _ _ _
    have lokM : lok (lset (List.replicate (w + 1).toNat mNone) x1 'S') (x1 + 1) = true := by
      rw [lok_lset]
      exact lok_replicate _ _ _ (by omega) (by omega)
    have hI1 : lget (lset (List.replicate w.toNat ([] : RawObject)) 1 [pixData.mkP x1 y 1]) 1 []
        = [pixData.mkP x1 y 1] :=
      lget_lset_self (by omega) (by rw [List.length_replicate]; omega) _ _
    have hS1 : lget (lset (List.replicate w.toNat (-1 : Int)) 1 x1) 1 (-1) = x1 :=
      lget_lset_self (by omega) (by rw [List.length_replicate]; omega) _ _
    simp [processCol, EndSegment, ModOBSTACK, ModPSSTACK,
      getPix_cfgU w h x1 x2 y0 y1 (x1 + 1) y (by omega) (by omega), hf0, hthr,
      hmR, lokM, hI1, hS1, lokP0, lokP1, lokS1, lokI1, lokO1, lget_replicate,
      lset_replicate_self, lok_lset, lset_lset_self]
  have hE : processCol (cfgU w h x1 x2 y0 y1) y x2
      { m_MARKER := lset (lset (List.replicate (w + 1).toNat mNone) x1 'S') (x1 + 1) 'F'
        m_PSSTACK := List.replicate w.toNat LUTZSTATUS.COMPLETE
        m_START := List.replicate w.toNat (-1)
        m_END := List.replicate w.toNat (-1)
        m_INFO := List.replicate w.toNat []
        m_STORE := lset (List.replicate w.toNat []) x1 [pixData.mkP x1 y 1]
        m_Objects := []
        m_PS := LUTZSTATUS.COMPLETE
        m_CS := LUTZSTATUS.NONOBJECT
        co := 0
        pstop := 0
        ub := false
        sMergeCount := 0 } =
      { m_MARKER := lset (lset (lset (List.replicate (w + 1).toNat mNone) x1 'S')
          (x1 + 1) 'F') x2 'S'
        m_PSSTACK := List.replicate w.toNat LUTZSTATUS.COMPLETE
        m_START := lset (List.replicate w.toNat (-1)) 1 x2
        m_END := List.replicate w.toNat (-1)
        m_INFO := lset (List.replicate w.toNat []) 1 [pixData.mkP x2 y 1]
        m_STORE := lset (List.replicate w.toNat []) x1 [pixData.mkP x1 y 1]
        m_Objects := []
        m_PS := LUTZSTATUS.COMPLETE
        m_CS := LUTZSTATUS.OBJECT
        co := 1
        pstop := 1
        ub := false
        sMergeCount := 0 } := by
    have hmR : lget (lset (lset (List.replicate (w + 1).toNat mNone) x1 'S') (x1 + 1) 'F')
        x2 mNone = mNone := by
      rw [lget_lset_ne (by omega) _ _ _ (by omega), lget_lset_ne (by omega) _ _ _ (by omega)]
      exact lget_replicate _ _ _
    have lokM : lok (lset (lset (List.replicate (w + 1).toNat mNone) x1 'S') (x1 + 1) 'F')
        x2 = true := by
      rw [lok_lset, lok_lset]
      exact lok_replicate _ _ _ (by omega) (by omega)
    simp [processCol, StartSegment, ModOBSTACK, ModPSSTACK,
      getPix_cfgU w h x1 x2 y0 y1 x2 y (by omega) (by omega), hfx2, hthr,
      hmR, lokM, lokP0, lokS1, lokI1, lget_replicate, lset_replicate_self, lok_lset,
      lset_lset_self, pixData.mkP]
  have hFstep : bgStep (cfgU w h x1 x2 y0 y1) (x2 + 1)
      { m_MARKER := lset (lset (lset (List.replicate (w + 1).toNat mNone) x1 'S')
          (x1 + 1) 'F') x2 'S'
        m_PSSTACK := List.replicate w.toNat LUTZSTATUS.COMPLETE
        m_START := lset (List.replicate w.toNat (-1)) 1 x2
        m_END := List.replicate w.toNat (-1)
        m_INFO := lset (List.replicate w.toNat []) 1 [pixData.mkP x2 y 1]
        m_STORE := lset (List.replicate w.toNat []) x1 [pixData.mkP x1 y 1]
        m_Objects := []
        m_PS := LUTZSTATUS.COMPLETE
        m_CS := LUTZSTATUS.OBJECT
        co := 1
        pstop := 1
        ub := false
        sMergeCount := 0 } = uBarState w x1 x2 [pixData.mkP x1 y 1] [pixData.mkP x2 y 1] := by
    have hmR : lget (lset (lset (lset (List.replicate (w + 1).toNat mNone) x1 'S')
        (x1 + 1) 'F') x2 'S') (x2 + 1) mNone = mNone := by
      rw [lget_lset_ne (by omega) _ _ _ (by omega), lget_lset_ne (by omega) _ _ _ (by omega),
        lget_lset_ne (by omega) _ _ _ (by omega)]
      exact lget_replicate _ _ _
    have lokM : lok (lset (lset (lset (List.replicate (w + 1).toNat mNone) x1 'S')
        (x1 + 1) 'F') x2 'S') (x2 + 1) = true := by
      rw [lok_lset, lok_lset, lok_lset]
      exact lok_replicate _ _ _ (by omega) (by omega)
    have hI1 : lget (lset (List.replicate w.toNat ([] : RawObject)) 1 [pixData.mkP x2 y 1]) 1 []
        = [pixData.mkP x2 y 1] :=
      lget_lset_self (by omega) (by rw [List.length_replicate]; omega) _ _
    have hS1 : lget (lset (List.replicate w.toNat (-1 : Int)) 1 x2) 1 (-1) = x2 :=
      lget_lset_self (by omega) (by rw [List.length_replicate]; omega) _ _
    have hO2 : lget (lset (List.replicate w.toNat ([] : RawObject)) x1 [pixData.mkP x1 y 1])
        x2 [] = [] := by
      rw [lget_lset_ne (by omega) _ _ _ (by omega)]
      exact lget_replicate _ _ _
    have lokO2b : lok (lset (List.replicate w.toNat ([] : RawObject)) x1 [pixData.mkP x1 y 1])
        x2 = true := by
      rw [lok_lset]
      exact lokO2
    simp [bgStep, EndSegment, ModOBSTACK, ModPSSTACK, uBarState,
      hmR, lokM, hI1, hS1, hO2, lokO2b, lokP0, lokP1, lokS1, lokI1, lget_replicate,
      lset_replicate_self, lok_lset, lset_lset_self]
  have hsegA : processColsAux (cfgU w h x1 x2 y0 y1) y x1.toNat 0 (uCleanState w [])
      = uCleanState w [] := by
    refine segBG w h x1 x2 y0 y1 y x1.toNat 0 (uCleanState w []) rfl (by simp [uCleanState])
      ?_ ?_ (by omega) (by omega)
    · intro k hk
      exact lget_replicate _ _ _
    · intro k hk
      exact fU_eq_zero (by omega)
  unfold processRow
  show processRowEnd _ (processColsAux _ y w.toNat 0 (uCleanState w [])) = _
  rcases (by omega : x2 + 1 < w ∨ x2 + 1 = w) with hcase | hcase
  · have hsplit : w.toNat = x1.toNat + (1 + (1 + ((x2 - x1 - 2).toNat +
        (1 + (1 + (w - x2 - 2).toNat))))) := by omega
    rw [hsplit]
    rw [processColsAux_add _ y x1.toNat _ 0 (uCleanState w [])]
    rw [hsegA, show ((0 : Int) + (x1.toNat : Int)) = x1 by omega]
    rw [processColsAux_add _ y 1 _ x1 (uCleanState w [])]
    rw [processColsAux_one, hB, show x1 + ((1 : Nat) : Int) = x1 + 1 by omega]
    rw [processColsAux_add _ y 1 _ (x1 + 1) _]
    rw [processColsAux_one, hC, show (x1 + 1) + ((1 : Nat) : Int) = x1 + 2 by omega]
    rw [processColsAux_add _ y (x2 - x1 - 2).toNat _ (x1 + 2) _]
    rw [segBG w h x1 x2 y0 y1 y (x2 - x1 - 2).toNat (x1 + 2) _ rfl
      (by simp [length_lset])
      (fun k hk => by
        rw [lget_lset_ne (by omega) _ _ _ (by omega), lget_lset_ne (by omega) _ _ _ (by omega)]
        exact lget_replicate _ _ _)
      (fun k hk => fU_eq_zero (by omega)) (by omega) (by omega)]
    rw [show (x1 + 2) + ((x2 - x1 - 2).toNat : Int) = x2 by omega]
    rw [processColsAux_add _ y 1 _ x2 _]
    rw [processColsAux_one, hE, show x2 + ((1 : Nat) : Int) = x2 + 1 by omega]
    rw [processColsAux_add _ y 1 _ (x2 + 1) _]
    rw [processColsAux_one]
    rw [processCol_bg _ y (x2 + 1) _
      (by rw [getPix_cfgU w h x1 x2 y0 y1 (x2 + 1) y (by omega) (by omega)])
      (by
        rw [getPix_cfgU w h x1 x2 y0 y1 (x2 + 1) y (by omega) (by omega)]
        show ¬ fU x1 x2 y0 y1 (x2 + 1) y > (0 : ℚ)
        rw [fU_eq_zero (by omega)]
        simp)]
    rw [hFstep, show (x2 + 1) + ((1 : Nat) : Int) = x2 + 2 by omega]
    rw [segBG w h x1 x2 y0 y1 y (w - x2 - 2).toNat (x2 + 2)
      (uBarState w x1 x2 [pixData.mkP x1 y 1] [pixData.mkP x2 y 1]) rfl
      (by simp [uBarState, length_lset])
      (fun k hk => by
        show lget (lset (lset (lset (lset (List.replicate (w + 1).toNat mNone) x1 'S')
          (x1 + 1) 'F') x2 'S') (x2 + 1) 'F') (x2 + 2 + (k : Int)) mNone = mNone
        rw [lget_lset_ne (by omega) _ _ _ (by omega), lget_lset_ne (by omega) _ _ _ (by omega),
          lget_lset_ne (by omega) _ _ _ (by omega), lget_lset_ne (by omega) _ _ _ (by omega)]
        exact lget_replicate _ _ _)
      (fun k hk => fU_eq_zero (by omega)) (by omega) (by omega)]
    rw [processRowEnd_eq_bgStep _ _
      (by simp [uBarState, length_lset, show (cfgU w h x1 x2 y0 y1).m_xpix = w from rfl])
      (by show (0 : Int) ≤ w; omega)]
    rw [show (cfgU w h x1 x2 y0 y1).m_xpix = w from rfl]
    refine bgStep_clean _ w _ ?_ ?_ rfl
    · show lget (lset (lset (lset (lset (List.replicate (w + 1).toNat mNone) x1 'S')
        (x1 + 1) 'F') x2 'S') (x2 + 1) 'F') w mNone = mNone
      rw [lget_lset_ne (by omega) _ _ _ (by omega), lget_lset_ne (by omega) _ _ _ (by omega),
        lget_lset_ne (by omega) _ _ _ (by omega), lget_lset_ne (by omega) _ _ _ (by omega)]
      exact lget_replicate _ _ _
    · show lok (lset (lset (lset (lset (List.replicate (w + 1).toNat mNone) x1 'S')
        (x1 + 1) 'F') x2 'S') (x2 + 1) 'F') w = true
      rw [lok_lset, lok_lset, lok_lset, lok_lset]
      exact lok_replicate _ _ _ (by omega) (by omega)
  · have hsplit : w.toNat = x1.toNat + (1 + (1 + ((x2 - x1 - 2).toNat + 1))) := by omega
    rw [hsplit]
    rw [processColsAux_add _ y x1.toNat _ 0 (uCleanState w [])]
    rw [hsegA, show ((0 : Int) + (x1.toNat : Int)) = x1 by omega]
    rw [processColsAux_add _ y 1 _ x1 (uCleanState w [])]
    rw [processColsAux_one, hB, show x1 + ((1 : Nat) : Int) = x1 + 1 by omega]
    rw [processColsAux_add _ y 1 _ (x1 + 1) _]
    rw [processColsAux_one, hC, show (x1 + 1) + ((1 : Nat) : Int) = x1 + 2 by omega]
    rw [processColsAux_add _ y (x2 - x1 - 2).toNat _ (x1 + 2) _]
    rw [segBG w h x1 x2 y0 y1 y (x2 - x1 - 2).toNat (x1 + 2) _ rfl
      (by simp [length_lset])
      (fun k hk => by
        rw [lget_lset_ne (by omega) _ _ _ (by omega), lget_lset_ne (by omega) _ _ _ (by omega)]
        exact lget_replicate _ _ _)
      (fun k hk => fU_eq_zero (by omega)) (by omega) (by omega)]
    rw [show (x1 + 2) + ((x2 - x1 - 2).toNat : Int) = x2 by omega]
    rw [processColsAux_one, hE]
    rw [processRowEnd_eq_bgStep _ _
      (by simp [length_lset, show (cfgU w h x1 x2 y0 y1).m_xpix = w from rfl])
      (by show (0 : Int) ≤ w; omega)]
    rw [show (cfgU w h x1 x2 y0 y1).m_xpix = w from rfl]
    rw [hcase] at hFstep
    exact hFstep

theorem isEmpty_false_of_ne_nil {l : List α} (h : l ≠ []) : l.isEmpty = false := by
  cases l with
  | nil => exact absurd rfl h
  | cons a t => rfl

theorem append_singleton_ne_nil (l : List α) (a : α) : l ++ [a] ≠ [] := by
  cases l <;> simp

/-- Any subsequent bar row of a U-shape scan: the four markers are consumed
and re-created, and each bar fragment in `m_STORE` grows by this row's bar
pixel. -/
theorem rowBarNext (w h x1 x2 y0 y1 y : Int) (S1 S2 : RawObject)
    (hx1 : 0 ≤ x1) (h12 : x1 + 2 ≤ x2) (h2w : x2 + 1 ≤ w)
    (hy : y0 ≤ y) (hyy : y < y1) (hS1 : S1 ≠ []) (hS2 : S2 ≠ []) :
    processRow (cfgU w h x1 x2 y0 y1) y (uBarState w x1 x2 S1 S2)
      = uBarState w x1 x2 (S1 ++ [pixData.mkP x1 y 1]) (S2 ++ [pixData.mkP x2 y 1]) := by
  have hfx1 : fU x1 x2 y0 y1 x1 y = 1 := fU_eq_one (Or.inl ⟨hy, hyy, Or.inl rfl⟩)
  have hfx2 : fU x1 x2 y0 y1 x2 y = 1 := fU_eq_one (Or.inl ⟨hy, hyy, Or.inr rfl⟩)
  have hthr : (cfgU w h x1 x2 y0 y1).m_threshold = 0 := rfl
  have hS1e : S1.isEmpty = false := isEmpty_false_of_ne_nil hS1
  have hS2e : S2.isEmpty = false := isEmpty_false_of_ne_nil hS2
  have hcS0 : 'S' ≠ mNone := by decide
  have hcF0 : 'F' ≠ mNone := by decide
  have hcFS : 'F' ≠ 'S' := by decide
  have hcFs : 'F' ≠ 's' := by decide
  have hcFf : 'F' ≠ 'f' := by decide
  have lokP0 : lok (List.replicate w.toNat LUTZSTATUS.COMPLETE) 0 = true :=
    lok_replicate _ _ _ (by omega) (by omega)
  have lokP1 : lok (List.replicate w.toNat LUTZSTATUS.COMPLETE) 1 = true :=
    lok_replicate _ _ _ (by omega) (by omega)
  have lokS1 : lok (List.replicate w.toNat (-1 : Int)) 1 = true :=
    lok_replicate _ _ _ (by omega) (by omega)
  have lokI1 : lok (List.replicate w.toNat ([] : RawObject)) 1 = true :=
    lok_replicate _ _ _ (by omega) (by omega)
  have lokMr1 : lok (List.replicate (w + 1).toNat mNone) x1 = true :=
    lok_replicate _ _ _ (by omega) (by omega)
  have lokMr11 : lok (List.replicate (w + 1).toNat mNone) (x1 + 1) = true :=
    lok_replicate _ _ _ (by omega) (by omega)
  have lokMr2 : lok (List.replicate (w + 1).toNat mNone) x2 = true :=
    lok_replicate _ _ _ (by omega) (by omega)
  have lokMr21 : lok (List.replicate (w + 1).toNat mNone) (x2 + 1) = true :=
    lok_replicate _ _ _ (by omega) (by omega)
  have hM4x1 : lget (lset (lset (lset (lset (List.replicate (w + 1).toNat mNone) x1 'S')
      (x1 + 1) 'F') x2 'S') (x2 + 1) 'F') x1 mNone = 'S' := by
    rw [lget_lset_ne (by omega) _ _ _ (by omega), lget_lset_ne (by omega) _ _ _ (by omega),
      lget_lset_ne (by omega) _ _ _ (by omega)]
    exact lget_lset_self (by omega) (by rw [List.length_replicate]; omega) _ _
  have hM4set1 : lset (lset (lset (lset (lset (List.replicate (w + 1).toNat mNone) x1 'S')
      (x1 + 1) 'F') x2 'S') (x2 + 1) 'F') x1 'S'
      = lset (lset (lset (lset (List.replicate (w + 1).toNat mNone) x1 'S')
        (x1 + 1) 'F') x2 'S') (x2 + 1) 'F' := lset_of_lget_eq hM4x1
  have lokM1 : lok (lset (lset (lset (lset (List.replicate (w + 1).toNat mNone) x1 'S')
      (x1 + 1) 'F') x2 'S') (x2 + 1) 'F') x1 = true := by
    rw [lok_lset, lok_lset, lok_lset, lok_lset]
    exact lok_replicate _ _ _ (by omega) (by omega)
  have hSTx1 : lget (lset (lset (List.replicate w.toNat ([] : RawObject)) x1 S1) x2 S2)
      x1 [] = S1 := by
    rw [lget_lset_ne (by omega) _ _ _ (by omega)]
    exact lget_lset_self (by omega) (by rw [List.length_replicate]; omega) _ _
  have lokSTx1 : lok (lset (lset (List.replicate w.toNat ([] : RawObject)) x1 S1) x2 S2)
      x1 = true := by
    rw [lok_lset, lok_lset]
    exact lok_replicate _ _ _ (by omega) (by omega)
  have hSTclear : lset (lset (lset (List.replicate w.toNat ([] : RawObject)) x1 S1) x2 S2)
      x1 ([] : RawObject) = lset (List.replicate w.toNat []) x2 S2 := by
    rw [lset_comm (show x1 ≠ x2 by omega) (List.replicate w.toNat []) S1 S2]
    rw [lset_lset_self, lset_comm (show x2 ≠ x1 by omega), lset_replicate_self]
  have hB2 : processCol (cfgU w h x1 x2 y0 y1) y x1 (uBarState w x1 x2 S1 S2) =
      { m_MARKER := lset (lset (lset (lset (List.replicate (w + 1).toNat mNone) x1 'S')
          (x1 + 1) 'F') x2 'S') (x2 + 1) 'F'
        m_PSSTACK := List.replicate w.toNat LUTZSTATUS.COMPLETE
        m_START := lset (List.replicate w.toNat (-1)) 1 x1
        m_END := List.replicate w.toNat (-1)
        m_INFO := lset (List.replicate w.toNat []) 1 (S1 ++ [pixData.mkP x1 y 1])
        m_STORE := lset (List.replicate w.toNat []) x2 S2
        m_Objects := []
        m_PS := LUTZSTATUS.OBJECT
        m_CS := LUTZSTATUS.OBJECT
        co := 1
        pstop := 2
        ub := false
        sMergeCount := 0 } := by
    have hIg : lget (lset (List.replicate w.toNat ([] : RawObject)) 1 S1) 1 [] = S1 :=
      lget_lset_self (by omega) (by rw [List.length_replicate]; omega) _ _
    simp [processCol, StartSegment, ProcessNewMarker, ModOBSTACK, ModPSSTACK, uBarState,
      getPix_cfgU w h x1 x2 y0 y1 x1 y (by omega) (by omega), hfx1, hthr,
      hM4x1, hM4set1, lokM1, hSTx1, lokSTx1, hSTclear, hS1e, hIg, hcS0, hcF0, lokMr1, lokMr11, lokMr2, lokMr21,
      lokP0, lokP1, lokS1, lokI1, lget_replicate, lset_replicate_self, lok_lset,
      lset_lset_self, pixData.mkP]
  have hM4x11 : lget (lset (lset (lset (lset (List.replicate (w + 1).toNat mNone) x1 'S')
      (x1 + 1) 'F') x2 'S') (x2 + 1) 'F') (x1 + 1) mNone = 'F' := by
    rw [lget_lset_ne (by omega) _ _ _ (by omega), lget_lset_ne (by omega) _ _ _ (by omega)]
    exact lget_lset_self (by omega) (by rw [length_lset, List.length_replicate]; omega) _ _
  have lokM11 : lok (lset (lset (lset (lset (List.replicate (w + 1).toNat mNone) x1 'S')
      (x1 + 1) 'F') x2 'S') (x2 + 1) 'F') (x1 + 1) = true := by
    rw [lok_lset, lok_lset, lok_lset, lok_lset]
    exact lok_replicate _ _ _ (by omega) (by omega)
  have hMclear1 : lset (lset (lset (lset (lset (List.replicate (w + 1).toNat mNone) x1 'S')
      (x1 + 1) 'F') x2 'S') (x2 + 1) 'F') (x1 + 1) mNone
      = lset (lset (lset (List.replicate (w + 1).toNat mNone) x1 'S') x2 'S') (x2 + 1) 'F' := by
    rw [lset_comm (show x2 + 1 ≠ x1 + 1 by omega), lset_comm (show x2 ≠ x1 + 1 by omega),
      lset_lset_self]
    rw [lset_of_lget_eq (show lget (lset (List.replicate (w + 1).toNat mNone) x1 'S')
      (x1 + 1) mNone = mNone from by
        rw [lget_lset_ne (by omega) _ _ _ (by omega)]
        exact lget_replicate _ _ _)]
  have hMrestore1 : lset (lset (lset (lset (List.replicate (w + 1).toNat mNone) x1 'S')
      x2 'S') (x2 + 1) 'F') (x1 + 1) 'F'
      = lset (lset (lset (lset (List.replicate (w + 1).toNat mNone) x1 'S')
        (x1 + 1) 'F') x2 'S') (x2 + 1) 'F' := by
    rw [lset_comm (show x2 + 1 ≠ x1 + 1 by omega), lset_comm (show x2 ≠ x1 + 1 by omega)]
  have hC2 : processCol (cfgU w h x1 x2 y0 y1) y (x1 + 1)
      { m_MARKER := lset (lset (lset (lset (List.replicate (w + 1).toNat mNone) x1 'S')
          (x1 + 1) 'F') x2 'S') (x2 + 1) 'F'
        m_PSSTACK := List.replicate w.toNat LUTZSTATUS.COMPLETE
        m_START := lset (List.replicate w.toNat (-1)) 1 x1
        m_END := List.replicate w.toNat (-1)
        m_INFO := lset (List.replicate w.toNat []) 1 (S1 ++ [pixData.mkP x1 y 1])
        m_STORE := lset (List.replicate w.toNat []) x2 S2
        m_Objects := []
        m_PS := LUTZSTATUS.OBJECT
        m_CS := LUTZSTATUS.OBJECT
        co := 1
        pstop := 2
        ub := false
        sMergeCount := 0 } =
      { m_MARKER := lset (lset (lset (lset (List.replicate (w + 1).toNat mNone) x1 'S')
          (x1 + 1) 'F') x2 'S') (x2 + 1) 'F'
        m_PSSTACK := List.replicate w.toNat LUTZSTATUS.COMPLETE
        m_START := List.replicate w.toNat (-1)
        m_END := List.replicate w.toNat (-1)
        m_INFO := List.replicate w.toNat []
        m_STORE := lset (lset (List.replicate w.toNat []) x1 (S1 ++ [pixData.mkP x1 y 1]))
          x2 S2
        m_Objects := []
        m_PS := LUTZSTATUS.COMPLETE
        m_CS := LUTZSTATUS.NONOBJECT
        co := 0
        pstop := 0
        ub := false
        sMergeCount := 0 } := by
    have hf0 : fU x1 x2 y0 y1 (x1 + 1) y = 0 := fU_eq_zero (by omega)
    have hIg : lget (lset (List.replicate w.toNat ([] : RawObject)) 1
        (S1 ++ [pixData.mkP x1 y 1])) 1 [] = S1 ++ [pixData.mkP x1 y 1] :=
      lget_lset_self (by omega) (by rw [List.length_replicate]; omega) _ _
    have hV1e : (S1 ++ [pixData.mkP x1 y 1]).isEmpty = false :=
      isEmpty_false_of_ne_nil (append_singleton_ne_nil _ _)
    have hSg : lget (lset (List.replicate w.toNat (-1 : Int)) 1 x1) 1 (-1) = x1 :=
      lget_lset_self (by omega) (by rw [List.length_replicate]; omega) _ _
    have hSTg : lget (lset (List.replicate w.toNat ([] : RawObject)) x2 S2) x1 [] = [] := by
      rw [lget_lset_ne (by omega) _ _ _ (by omega)]
      exact lget_replicate _ _ _
    have lokSTb : lok (lset (List.replicate w.toNat ([] : RawObject)) x2 S2) x1 = true := by
      rw [lok_lset]
      exact lok_replicate _ _ _ (by omega) (by omega)
    have hSTcomm : lset (lset (List.replicate w.toNat ([] : RawObject)) x2 S2) x1
        (S1 ++ [pixData.mkP x1 y 1])
        = lset (lset (List.replicate w.toNat []) x1 (S1 ++ [pixData.mkP x1 y 1])) x2 S2 :=
      lset_comm (by omega) _ _ _
    simp [processCol, EndSegment, ProcessNewMarker, ModOBSTACK, ModPSSTACK,
      getPix_cfgU w h x1 x2 y0 y1 (x1 + 1) y (by omega) (by omega), hf0, hthr,
      hM4x11, lokM11, hMclear1, hMrestore1, hIg, hV1e, hSg, hSTg, lokSTb, hSTcomm,
      hcS0, hcF0, hcFS, hcFs, hcFf, lokMr1, lokMr11, lokMr2, lokMr21,
      lokP0, lokP1, lokS1, lokI1, lget_replicate, lset_replicate_self, lok_lset,
      lset_lset_self]
  have hM4x2 : lget (lset (lset (lset (lset (List.replicate (w + 1).toNat mNone) x1 'S')
      (x1 + 1) 'F') x2 'S') (x2 + 1) 'F') x2 mNone = 'S' := by
    rw [lget_lset_ne (by omega) _ _ _ (by omega)]
    exact lget_lset_self (by omega)
      (by rw [length_lset, length_lset, List.length_replicate]; omega) _ _
  have hM4set2 : lset (lset (lset (lset (lset (List.replicate (w + 1).toNat mNone) x1 'S')
      (x1 + 1) 'F') x2 'S') (x2 + 1) 'F') x2 'S'
      = lset (lset (lset (lset (List.replicate (w + 1).toNat mNone) x1 'S')
        (x1 + 1) 'F') x2 'S') (x2 + 1) 'F' := lset_of_lget_eq hM4x2
  have lokM2 : lok (lset (lset (lset (lset (List.replicate (w + 1).toNat mNone) x1 'S')
      (x1 + 1) 'F') x2 'S') (x2 + 1) 'F') x2 = true := by
    rw [lok_lset, lok_lset, lok_lset, lok_lset]
    exact lok_replicate _ _ _ (by omega) (by omega)
  have hE2 : processCol (cfgU w h x1 x2 y0 y1) y x2
      { m_MARKER := lset (lset (lset (lset (List.replicate (w + 1).toNat mNone) x1 'S')
          (x1 + 1) 'F') x2 'S') (x2 + 1) 'F'
        m_PSSTACK := List.replicate w.toNat LUTZSTATUS.COMPLETE
        m_START := List.replicate w.toNat (-1)
        m_END := List.replicate w.toNat (-1)
        m_INFO := List.replicate w.toNat []
        m_STORE := lset (lset (List.replicate w.toNat []) x1 (S1 ++ [pixData.mkP x1 y 1]))
          x2 S2
        m_Objects := []
        m_PS := LUTZSTATUS.COMPLETE
        m_CS := LUTZSTATUS.NONOBJECT
        co := 0
        pstop := 0
        ub := false
        sMergeCount := 0 } =
      { m_MARKER := lset (lset (lset (lset (List.replicate (w + 1).toNat mNone) x1 'S')
          (x1 + 1) 'F') x2 'S') (x2 + 1) 'F'
        m_PSSTACK := List.replicate w.toNat LUTZSTATUS.COMPLETE
        m_START := lset (List.replicate w.toNat (-1)) 1 x2
        m_END := List.replicate w.toNat (-1)
        m_INFO := lset (List.replicate w.toNat []) 1 (S2 ++ [pixData.mkP x2 y 1])
        m_STORE := lset (lset (lset (List.replicate w.toNat [])
          x1 (S1 ++ [pixData.mkP x1 y 1])) x2 S2) x2 []
        m_Objects := []
        m_PS := LUTZSTATUS.OBJECT
        m_CS := LUTZSTATUS.OBJECT
        co := 1
        pstop := 2
        ub := false
        sMergeCount := 0 } := by
    have hSTx2 : lget (lset (lset (List.replicate w.toNat ([] : RawObject))
        x1 (S1 ++ [pixData.mkP x1 y 1])) x2 S2) x2 [] = S2 :=
      lget_lset_self (by omega)
        (by rw [length_lset, List.length_replicate]; omega) _ _
    have lokSTx2 : lok (lset (lset (List.replicate w.toNat ([] : RawObject))
        x1 (S1 ++ [pixData.mkP x1 y 1])) x2 S2) x2 = true := by
      rw [lok_lset, lok_lset]
      exact lok_replicate _ _ _ (by omega) (by omega)
    have hIg : lget (lset (List.replicate w.toNat ([] : RawObject)) 1 S2) 1 [] = S2 :=
      lget_lset_self (by omega) (by rw [List.length_replicate]; omega) _ _
    have lokIr2 : lok (List.replicate w.toNat ([] : RawObject)) x2 = true :=
      lok_replicate _ _ _ (by omega) (by omega)
    simp only [pixData.mkP] at hSTx2 lokSTx2
    simp [processCol, StartSegment, ProcessNewMarker, ModOBSTACK, ModPSSTACK,
      getPix_cfgU w h x1 x2 y0 y1 x2 y (by omega) (by omega), hfx2, hthr,
      hM4x2, hM4set2, lokM2, hSTx2, lokSTx2, hS2e, hIg, lokIr2, hcS0, hcF0,
      lokMr1, lokMr11, lokMr2, lokMr21,
      lokP0, lokP1, lokS1, lokI1, lget_replicate, lset_replicate_self, lok_lset,
      lset_lset_self, pixData.mkP]
  have hM4x21 : lget (lset (lset (lset (lset (List.replicate (w + 1).toNat mNone) x1 'S')
      (x1 + 1) 'F') x2 'S') (x2 + 1) 'F') (x2 + 1) mNone = 'F' :=
    lget_lset_self (by omega)
      (by rw [length_lset, length_lset, length_lset, List.length_replicate]; omega) _ _
  have lokM21 : lok (lset (lset (lset (lset (List.replicate (w + 1).toNat mNone) x1 'S')
      (x1 + 1) 'F') x2 'S') (x2 + 1) 'F') (x2 + 1) = true := by
    rw [lok_lset, lok_lset, lok_lset, lok_lset]
    exact lok_replicate _ _ _ (by omega) (by omega)
  have hMclear2 : lset (lset (lset (lset (lset (List.replicate (w + 1).toNat mNone) x1 'S')
      (x1 + 1) 'F') x2 'S') (x2 + 1) 'F') (x2 + 1) mNone
      = lset (lset (lset (List.replicate (w + 1).toNat mNone) x1 'S') (x1 + 1) 'F')
        x2 'S' := by
    rw [lset_lset_self]
    rw [lset_of_lget_eq (show lget (lset (lset (lset (List.replicate (w + 1).toNat mNone)
      x1 'S') (x1 + 1) 'F') x2 'S') (x2 + 1) mNone = mNone from by
        rw [lget_lset_ne (by omega) _ _ _ (by omega), lget_lset_ne (by omega) _ _ _ (by omega),
          lget_lset_ne (by omega) _ _ _ (by omega)]
        exact lget_replicate _ _ _)]
  have hF2 : bgStep (cfgU w h x1 x2 y0 y1) (x2 + 1)
      { m_MARKER := lset (lset (lset (lset (List.replicate (w + 1).toNat mNone) x1 'S')
          (x1 + 1) 'F') x2 'S') (x2 + 1) 'F'
        m_PSSTACK := List.replicate w.toNat LUTZSTATUS.COMPLETE
        m_START := lset (List.replicate w.toNat (-1)) 1 x2
        m_END := List.replicate w.toNat (-1)
        m_INFO := lset (List.replicate w.toNat []) 1 (S2 ++ [pixData.mkP x2 y 1])
        m_STORE := lset (lset (lset (List.replicate w.toNat [])
          x1 (S1 ++ [pixData.mkP x1 y 1])) x2 S2) x2 []
        m_Objects := []
        m_PS := LUTZSTATUS.OBJECT
        m_CS := LUTZSTATUS.OBJECT
        co := 1
        pstop := 2
        ub := false
        sMergeCount := 0 }
      = uBarState w x1 x2 (S1 ++ [pixData.mkP x1 y 1]) (S2 ++ [pixData.mkP x2 y 1]) := by
    have hIg : lget (lset (List.replicate w.toNat ([] : RawObject)) 1
        (S2 ++ [pixData.mkP x2 y 1])) 1 [] = S2 ++ [pixData.mkP x2 y 1] :=
      lget_lset_self (by omega) (by rw [List.length_replicate]; omega) _ _
    have hV2e : (S2 ++ [pixData.mkP x2 y 1]).isEmpty = false :=
      isEmpty_false_of_ne_nil (append_singleton_ne_nil _ _)
    have hSg : lget (lset (List.replicate w.toNat (-1 : Int)) 1 x2) 1 (-1) = x2 :=
      lget_lset_self (by omega) (by rw [List.length_replicate]; omega) _ _
    have hSTg : lget (lset (lset (List.replicate w.toNat ([] : RawObject))
        x1 (S1 ++ [pixData.mkP x1 y 1])) x2 []) x2 [] = [] :=
      lget_lset_self (by omega)
        (by rw [length_lset, List.length_replicate]; omega) _ _
    have lokSTg : lok (lset (lset (List.replicate w.toNat ([] : RawObject))
        x1 (S1 ++ [pixData.mkP x1 y 1])) x2 []) x2 = true := by
      rw [lok_lset, lok_lset]
      exact lok_replicate _ _ _ (by omega) (by omega)
    have lokIr2b : lok (List.replicate w.toNat ([] : RawObject)) x2 = true :=
      lok_replicate _ _ _ (by omega) (by omega)
    simp [bgStep, EndSegment, ProcessNewMarker, ModOBSTACK, ModPSSTACK, uBarState,
      hM4x21, lokM21, hMclear2, hIg, hV2e, hSg, hSTg, lokSTg, lokIr2b,
      hcS0, hcF0, hcFS, hcFs, hcFf, lokMr1, lokMr11, lokMr2, lokMr21,
      lokP0, lokP1, lokS1, lokI1, lget_replicate, lset_replicate_self, lok_lset,
      lset_lset_self]
  have hsegA : processColsAux (cfgU w h x1 x2 y0 y1) y x1.toNat 0 (uBarState w x1 x2 S1 S2)
      = uBarState w x1 x2 S1 S2 := by
    refine segBG w h x1 x2 y0 y1 y x1.toNat 0 (uBarState w x1 x2 S1 S2) rfl
      (by simp [uBarState, length_lset]) ?_ ?_ (by omega) (by omega)
    · intro k hk
      show lget (lset (lset (lset (lset (List.replicate (w + 1).toNat mNone) x1 'S')
        (x1 + 1) 'F') x2 'S') (x2 + 1) 'F') (0 + (k : Int)) mNone = mNone
      rw [lget_lset_ne (by omega) _ _ _ (by omega), lget_lset_ne (by omega) _ _ _ (by omega),
        lget_lset_ne (by omega) _ _ _ (by omega), lget_lset_ne (by omega) _ _ _ (by omega)]
      exact lget_replicate _ _ _
    · intro k hk
      exact fU_eq_zero (by omega)
  unfold processRow
  show processRowEnd _ (processColsAux _ y w.toNat 0 (uBarState w x1 x2 S1 S2)) = _
  rcases (by omega : x2 + 1 < w ∨ x2 + 1 = w) with hcase | hcase
  · have hsplit : w.toNat = x1.toNat + (1 + (1 + ((x2 - x1 - 2).toNat +
        (1 + (1 + (w - x2 - 2).toNat))))) := by omega
    rw [hsplit]
    rw [processColsAux_add _ y x1.toNat _ 0 (uBarState w x1 x2 S1 S2)]
    rw [hsegA, show ((0 : Int) + (x1.toNat : Int)) = x1 by omega]
    rw [processColsAux_add _ y 1 _ x1 (uBarState w x1 x2 S1 S2)]
    rw [processColsAux_one, hB2, show x1 + ((1 : Nat) : Int) = x1 + 1 by omega]
    rw [processColsAux_add _ y 1 _ (x1 + 1) _]
    rw [processColsAux_one, hC2, show (x1 + 1) + ((1 : Nat) : Int) = x1 + 2 by omega]
    rw [processColsAux_add _ y (x2 - x1 - 2).toNat _ (x1 + 2) _]
    rw [segBG w h x1 x2 y0 y1 y (x2 - x1 - 2).toNat (x1 + 2) _ rfl
      (by simp [length_lset])
      (fun k hk => by
        show lget (lset (lset (lset (lset (List.replicate (w + 1).toNat mNone) x1 'S')
          (x1 + 1) 'F') x2 'S') (x2 + 1) 'F') (x1 + 2 + (k : Int)) mNone = mNone
        rw [lget_lset_ne (by omega) _ _ _ (by omega), lget_lset_ne (by omega) _ _ _ (by omega),
          lget_lset_ne (by omega) _ _ _ (by omega), lget_lset_ne (by omega) _ _ _ (by omega)]
        exact lget_replicate _ _ _)
      (fun k hk => fU_eq_zero (by omega)) (by omega) (by omega)]
    rw [show (x1 + 2) + ((x2 - x1 - 2).toNat : Int) = x2 by omega]
    rw [processColsAux_add _ y 1 _ x2 _]
    rw [processColsAux_one, hE2, show x2 + ((1 : Nat) : Int) = x2 + 1 by omega]
    rw [processColsAux_add _ y 1 _ (x2 + 1) _]
    rw [processColsAux_one]
    rw [processCol_bg _ y (x2 + 1) _
      (by rw [getPix_cfgU w h x1 x2 y0 y1 (x2 + 1) y (by omega) (by omega)])
      (by
        rw [getPix_cfgU w h x1 x2 y0 y1 (x2 + 1) y (by omega) (by omega)]
        show ¬ fU x1 x2 y0 y1 (x2 + 1) y > (0 : ℚ)
        rw [fU_eq_zero (by omega)]
        simp)]
    rw [hF2, show (x2 + 1) + ((1 : Nat) : Int) = x2 + 2 by omega]
    rw [segBG w h x1 x2 y0 y1 y (w - x2 - 2).toNat (x2 + 2)
      (uBarState w x1 x2 (S1 ++ [pixData.mkP x1 y 1]) (S2 ++ [pixData.mkP x2 y 1])) rfl
      (by simp [uBarState, length_lset])
      (fun k hk => by
        show lget (lset (lset (lset (lset (List.replicate (w + 1).toNat mNone) x1 'S')
          (x1 + 1) 'F') x2 'S') (x2 + 1) 'F') (x2 + 2 + (k : Int)) mNone = mNone
        rw [lget_lset_ne (by omega) _ _ _ (by omega), lget_lset_ne (by omega) _ _ _ (by omega),
          lget_lset_ne (by omega) _ _ _ (by omega), lget_lset_ne (by omega) _ _ _ (by omega)]
        exact lget_replicate _ _ _)
      (fun k hk => fU_eq_zero (by omega)) (by omega) (by omega)]
    rw [processRowEnd_eq_bgStep _ _
      (by simp [uBarState, length_lset, show (cfgU w h x1 x2 y0 y1).m_xpix = w from rfl])
      (by show (0 : Int) ≤ w; omega)]
    rw [show (cfgU w h x1 x2 y0 y1).m_xpix = w from rfl]
    refine bgStep_clean _ w _ ?_ ?_ rfl
    · show lget (lset (lset (lset (lset (List.replicate (w + 1).toNat mNone) x1 'S')
        (x1 + 1) 'F') x2 'S') (x2 + 1) 'F') w mNone = mNone
      rw [lget_lset_ne (by omega) _ _ _ (by omega), lget_lset_ne (by omega) _ _ _ (by omega),
        lget_lset_ne (by omega) _ _ _ (by omega), lget_lset_ne (by omega) _ _ _ (by omega)]
      exact lget_replicate _ _ _
    · show lok (lset (lset (lset (lset (List.replicate (w + 1).toNat mNone) x1 'S')
        (x1 + 1) 'F') x2 'S') (x2 + 1) 'F') w = true
      rw [lok_lset, lok_lset, lok_lset, lok_lset]
      exact lok_replicate _ _ _ (by omega) (by omega)
  · have hsplit : w.toNat = x1.toNat + (1 + (1 + ((x2 - x1 - 2).toNat + 1))) := by omega
    rw [hsplit]
    rw [processColsAux_add _ y x1.toNat _ 0 (uBarState w x1 x2 S1 S2)]
    rw [hsegA, show ((0 : Int) + (x1.toNat : Int)) = x1 by omega]
    rw [processColsAux_add _ y 1 _ x1 (uBarState w x1 x2 S1 S2)]
    rw [processColsAux_one, hB2, show x1 + ((1 : Nat) : Int) = x1 + 1 by omega]
    rw [processColsAux_add _ y 1 _ (x1 + 1) _]
    rw [processColsAux_one, hC2, show (x1 + 1) + ((1 : Nat) : Int) = x1 + 2 by omega]
    rw [processColsAux_add _ y (x2 - x1 - 2).toNat _ (x1 + 2) _]
    rw [segBG w h x1 x2 y0 y1 y (x2 - x1 - 2).toNat (x1 + 2) _ rfl
      (by simp [length_lset])
      (fun k hk => by
        show lget (lset (lset (lset (lset (List.replicate (w + 1).toNat mNone) x1 'S')
          (x1 + 1) 'F') x2 'S') (x2 + 1) 'F') (x1 + 2 + (k : Int)) mNone = mNone
        rw [lget_lset_ne (by omega) _ _ _ (by omega), lget_lset_ne (by omega) _ _ _ (by omega),
          lget_lset_ne (by omega) _ _ _ (by omega), lget_lset_ne (by omega) _ _ _ (by omega)]
        exact lget_replicate _ _ _)
      (fun k hk => fU_eq_zero (by omega)) (by omega) (by omega)]
    rw [show (x1 + 2) + ((x2 - x1 - 2).toNat : Int) = x2 by omega]
    rw [processColsAux_one, hE2]
    rw [processRowEnd_eq_bgStep _ _
      (by simp [length_lset, show (cfgU w h x1 x2 y0 y1).m_xpix = w from rfl])
      (by show (0 : Int) ≤ w; omega)]
    rw [show (cfgU w h x1 x2 y0 y1).m_xpix = x2 + 1 from by
      show w = x2 + 1
      omega]
    exact hF2

/-- The join row `y1` of a U-shape scan: the bottom row connects the two
bars.  The left bar's marker pair is consumed while its `m_STORE` fragment
is folded back into the running segment, the row pixels accumulate, the
right bar's fragment is folded in at `x2`, and the combined list is parked
in `m_STORE[x1]` when the segment closes at `x2 + 1`. -/
theorem rowJoin (w h x1 x2 y0 y1 : Int) (S1 S2 : RawObject)
    (hx1 : 0 ≤ x1) (h12 : x1 + 2 ≤ x2) (h2w : x2 + 1 ≤ w)
    (hS1 : S1 ≠ []) (hS2 : S2 ≠ []) :
    processRow (cfgU w h x1 x2 y0 y1) y1 (uBarState w x1 x2 S1 S2)
      = uJoinState w x1 x2
        (S1 ++ [pixData.mkP x1 y1 1] ++ rowPixList (x1 + 1) y1 (x2 - x1 - 1).toNat
          ++ S2 ++ [pixData.mkP x2 y1 1]) := by
  have hfx1 : fU x1 x2 y0 y1 x1 y1 = 1 := fU_eq_one (Or.inr ⟨rfl, le_refl x1, by omega⟩)
  have hfx11 : fU x1 x2 y0 y1 (x1 + 1) y1 = 1 := fU_eq_one (Or.inr ⟨rfl, by omega, by omega⟩)
  have hfx2 : fU x1 x2 y0 y1 x2 y1 = 1 := fU_eq_one (Or.inr ⟨rfl, by omega, le_refl x2⟩)
  have hthr : (cfgU w h x1 x2 y0 y1).m_threshold = 0 := rfl
  have hS1e : S1.isEmpty = false := isEmpty_false_of_ne_nil hS1
  have hS2e : S2.isEmpty = false := isEmpty_false_of_ne_nil hS2
  have hcS0 : 'S' ≠ mNone := by decide
  have hcF0 : 'F' ≠ mNone := by decide
  have hcFS : 'F' ≠ 'S' := by decide
  have hcFs : 'F' ≠ 's' := by decide
  have hcFf : 'F' ≠ 'f' := by decide
  have lokP0 : lok (List.replicate w.toNat LUTZSTATUS.COMPLETE) 0 = true :=
    lok_replicate _ _ _ (by omega) (by omega)
  have lokP1 : lok (List.replicate w.toNat LUTZSTATUS.COMPLETE) 1 = true :=
    lok_replicate _ _ _ (by omega) (by omega)
  have lokS1 : lok (List.replicate w.toNat (-1 : Int)) 1 = true :=
    lok_replicate _ _ _ (by omega) (by omega)
  have lokI1 : lok (List.replicate w.toNat ([] : RawObject)) 1 = true :=
    lok_replicate _ _ _ (by omega) (by omega)
  have lokMr1 : lok (List.replicate (w + 1).toNat mNone) x1 = true :=
    lok_replicate _ _ _ (by omega) (by omega)
  have lokMr11 : lok (List.replicate (w + 1).toNat mNone) (x1 + 1) = true :=
    lok_replicate _ _ _ (by omega) (by omega)
  have lokMr2 : lok (List.replicate (w + 1).toNat mNone) x2 = true :=
    lok_replicate _ _ _ (by omega) (by omega)
  have lokMr21 : lok (List.replicate (w + 1).toNat mNone) (x2 + 1) = true :=
    lok_replicate _ _ _ (by omega) (by omega)
  have lokIr1 : lok (List.replicate w.toNat ([] : RawObject)) x1 = true :=
    lok_replicate _ _ _ (by omega) (by omega)
  have lokIr2 : lok (List.replicate w.toNat ([] : RawObject)) x2 = true :=
    lok_replicate _ _ _ (by omega) (by omega)
  have hM4x1 : lget (lset (lset (lset (lset (List.replicate (w + 1).toNat mNone) x1 'S')
      (x1 + 1) 'F') x2 'S') (x2 + 1) 'F') x1 mNone = 'S' := by
    rw [lget_lset_ne (by omega) _ _ _ (by omega), lget_lset_ne (by omega) _ _ _ (by omega),
      lget_lset_ne (by omega) _ _ _ (by omega)]
    exact lget_lset_self (by omega) (by rw [List.length_replicate]; omega) _ _
  have hM4set1 : lset (lset (lset (lset (lset (List.replicate (w + 1).toNat mNone) x1 'S')
      (x1 + 1) 'F') x2 'S') (x2 + 1) 'F') x1 'S'
      = lset (lset (lset (lset (List.replicate (w + 1).toNat mNone) x1 'S')
        (x1 + 1) 'F') x2 'S') (x2 + 1) 'F' := lset_of_lget_eq hM4x1
  have lokM1 : lok (lset (lset (lset (lset (List.replicate (w + 1).toNat mNone) x1 'S')
      (x1 + 1) 'F') x2 'S') (x2 + 1) 'F') x1 = true := by
    rw [lok_lset, lok_lset, lok_lset, lok_lset]
    exact lokMr1
  have hSTx1 : lget (lset (lset (List.replicate w.toNat ([] : RawObject)) x1 S1) x2 S2)
      x1 [] = S1 := by
    rw [lget_lset_ne (by omega) _ _ _ (by omega)]
    exact lget_lset_self (by omega) (by rw [List.length_replicate]; omega) _ _
  have lokSTx1 : lok (lset (lset (List.replicate w.toNat ([] : RawObject)) x1 S1) x2 S2)
      x1 = true := by
    rw [lok_lset, lok_lset]
    exact lokIr1
  have hSTclear : lset (lset (lset (List.replicate w.toNat ([] : RawObject)) x1 S1) x2 S2)
      x1 ([] : RawObject) = lset (List.replicate w.toNat []) x2 S2 := by
    rw [lset_comm (show x1 ≠ x2 by omega) (List.replicate w.toNat []) S1 S2]
    rw [lset_lset_self, lset_comm (show x2 ≠ x1 by omega), lset_replicate_self]
  have hB3 : processCol (cfgU w h x1 x2 y0 y1) y1 x1 (uBarState w x1 x2 S1 S2) =
      { m_MARKER := lset (lset (lset (lset (List.replicate (w + 1).toNat mNone) x1 'S')
          (x1 + 1) 'F') x2 'S') (x2 + 1) 'F'
        m_PSSTACK := List.replicate w.toNat LUTZSTATUS.COMPLETE
        m_START := lset (List.replicate w.toNat (-1)) 1 x1
        m_END := List.replicate w.toNat (-1)
        m_INFO := lset (List.replicate w.toNat []) 1 (S1 ++ [pixData.mkP x1 y1 1])
        m_STORE := lset (List.replicate w.toNat []) x2 S2
        m_Objects := []
        m_PS := LUTZSTATUS.OBJECT
        m_CS := LUTZSTATUS.OBJECT
        co := 1
        pstop := 2
        ub := false
        sMergeCount := 0 } := by
    have hIg : lget (lset (List.replicate w.toNat ([] : RawObject)) 1 S1) 1 [] = S1 :=
      lget_lset_self (by omega) (by rw [List.length_replicate]; omega) _ _
    simp [processCol, StartSegment, ProcessNewMarker, ModOBSTACK, ModPSSTACK, uBarState,
      getPix_cfgU w h x1 x2 y0 y1 x1 y1 (by omega) (by omega), hfx1, hthr,
      hM4x1, hM4set1, lokM1, hSTx1, lokSTx1, hSTclear, hS1e, hIg, hcS0, hcF0,
      lokMr1, lokMr11, lokMr2, lokMr21,
      lokP0, lokP1, lokS1, lokI1, lget_replicate, lset_replicate_self, lok_lset,
      lset_lset_self, pixData.mkP]
  have hM4x11 : lget (lset (lset (lset (lset (List.replicate (w + 1).toNat mNone) x1 'S')
      (x1 + 1) 'F') x2 'S') (x2 + 1) 'F') (x1 + 1) mNone = 'F' := by
    rw [lget_lset_ne (by omega) _ _ _ (by omega), lget_lset_ne (by omega) _ _ _ (by omega)]
    exact lget_lset_self (by omega) (by rw [length_lset, List.length_replicate]; omega) _ _
  have lokM11 : lok (lset (lset (lset (lset (List.replicate (w + 1).toNat mNone) x1 'S')
      (x1 + 1) 'F') x2 'S') (x2 + 1) 'F') (x1 + 1) = true := by
    rw [lok_lset, lok_lset, lok_lset, lok_lset]
    exact lokMr11
  have hMclear1 : lset (lset (lset (lset (lset (List.replicate (w + 1).toNat mNone) x1 'S')
      (x1 + 1) 'F') x2 'S') (x2 + 1) 'F') (x1 + 1) mNone
      = lset (lset (lset (List.replicate (w + 1).toNat mNone) x1 'S') x2 'S') (x2 + 1) 'F' := by
    rw [lset_comm (show x2 + 1 ≠ x1 + 1 by omega), lset_comm (show x2 ≠ x1 + 1 by omega),
      lset_lset_self]
    rw [lset_of_lget_eq (show lget (lset (List.replicate (w + 1).toNat mNone) x1 'S')
      (x1 + 1) mNone = mNone from by
        rw [lget_lset_ne (by omega) _ _ _ (by omega)]
        exact lget_replicate _ _ _)]
  have hC3 : processCol (cfgU w h x1 x2 y0 y1) y1 (x1 + 1)
      { m_MARKER := lset (lset (lset (lset (List.replicate (w + 1).toNat mNone) x1 'S')
          (x1 + 1) 'F') x2 'S') (x2 + 1) 'F'
        m_PSSTACK := List.replicate w.toNat LUTZSTATUS.COMPLETE
        m_START := lset (List.replicate w.toNat (-1)) 1 x1
        m_END := List.replicate w.toNat (-1)
        m_INFO := lset (List.replicate w.toNat []) 1 (S1 ++ [pixData.mkP x1 y1 1])
        m_STORE := lset (List.replicate w.toNat []) x2 S2
        m_Objects := []
        m_PS := LUTZSTATUS.OBJECT
        m_CS := LUTZSTATUS.OBJECT
        co := 1
        pstop := 2
        ub := false
        sMergeCount := 0 } =
      { m_MARKER := lset (lset (lset (List.replicate (w + 1).toNat mNone) x1 'S')
          x2 'S') (x2 + 1) 'F'
        m_PSSTACK := List.replicate w.toNat LUTZSTATUS.COMPLETE
        m_START := lset (List.replicate w.toNat (-1)) 1 x1
        m_END := List.replicate w.toNat (-1)
        m_INFO := lset (List.replicate w.toNat []) 1
          (S1 ++ [pixData.mkP x1 y1 1] ++ [pixData.mkP (x1 + 1) y1 1])
        m_STORE := lset (List.replicate w.toNat []) x2 S2
        m_Objects := []
        m_PS := LUTZSTATUS.COMPLETE
        m_CS := LUTZSTATUS.OBJECT
        co := 1
        pstop := 1
        ub := false
        sMergeCount := 0 } := by
    have hIg : lget (lset (List.replicate w.toNat ([] : RawObject)) 1
        (S1 ++ [pixData.mkP x1 y1 1])) 1 [] = S1 ++ [pixData.mkP x1 y1 1] :=
      lget_lset_self (by omega) (by rw [List.length_replicate]; omega) _ _
    simp only [pixData.mkP] at hIg
    simp [processCol, ProcessNewMarker, ModOBSTACK, ModPSSTACK,
      getPix_cfgU w h x1 x2 y0 y1 (x1 + 1) y1 (by omega) (by omega), hfx11, hthr,
      hM4x11, lokM11, hMclear1, hIg, hcS0, hcF0, hcFS, hcFs, hcFf,
      lokMr1, lokMr11, lokMr2, lokMr21,
      lokP0, lokP1, lokS1, lokI1, lget_replicate, lset_replicate_self, lok_lset,
      lset_lset_self, pixData.mkP]
  have hsegM : processColsAux (cfgU w h x1 x2 y0 y1) y1 (x2 - x1 - 2).toNat (x1 + 2)
      { m_MARKER := lset (lset (lset (List.replicate (w + 1).toNat mNone) x1 'S')
          x2 'S') (x2 + 1) 'F'
        m_PSSTACK := List.replicate w.toNat LUTZSTATUS.COMPLETE
        m_START := lset (List.replicate w.toNat (-1)) 1 x1
        m_END := List.replicate w.toNat (-1)
        m_INFO := lset (List.replicate w.toNat []) 1
          (S1 ++ [pixData.mkP x1 y1 1] ++ [pixData.mkP (x1 + 1) y1 1])
        m_STORE := lset (List.replicate w.toNat []) x2 S2
        m_Objects := []
        m_PS := LUTZSTATUS.COMPLETE
        m_CS := LUTZSTATUS.OBJECT
        co := 1
        pstop := 1
        ub := false
        sMergeCount := 0 } =
      { m_MARKER := lset (lset (lset (List.replicate (w + 1).toNat mNone) x1 'S')
          x2 'S') (x2 + 1) 'F'
        m_PSSTACK := List.replicate w.toNat LUTZSTATUS.COMPLETE
        m_START := lset (List.replicate w.toNat (-1)) 1 x1
        m_END := List.replicate w.toNat (-1)
        m_INFO := lset (List.replicate w.toNat []) 1
          (S1 ++ [pixData.mkP x1 y1 1] ++ [pixData.mkP (x1 + 1) y1 1]
            ++ rowPixList (x1 + 2) y1 (x2 - x1 - 2).toNat)
        m_STORE := lset (List.replicate w.toNat []) x2 S2
        m_Objects := []
        m_PS := LUTZSTATUS.COMPLETE
        m_CS := LUTZSTATUS.OBJECT
        co := 1
        pstop := 1
        ub := false
        sMergeCount := 0 } := by
    rw [segFG w h x1 x2 y0 y1 y1 (x2 - x1 - 2).toNat (x1 + 2) _ rfl
      (by simp [length_lset])
      (fun k hk => by
        show lget (lset (lset (lset (List.replicate (w + 1).toNat mNone) x1 'S')
          x2 'S') (x2 + 1) 'F') (x1 + 2 + (k : Int)) mNone = mNone
        rw [lget_lset_ne (by omega) _ _ _ (by omega), lget_lset_ne (by omega) _ _ _ (by omega),
          lget_lset_ne (by omega) _ _ _ (by omega)]
        exact lget_replicate _ _ _)
      (fun k hk => fU_eq_one (Or.inr ⟨rfl, by omega, by omega⟩)) (by omega) (by omega)
      (by
        show lok (lset (List.replicate w.toNat ([] : RawObject)) 1
          (S1 ++ [pixData.mkP x1 y1 1] ++ [pixData.mkP (x1 + 1) y1 1])) 1 = true
        rw [lok_lset]
        exact lokI1)]
    have hIgAll : ∀ L : RawObject,
        lget (lset (List.replicate w.toNat ([] : RawObject)) 1 L) 1 [] = L :=
      fun L => lget_lset_self (by omega) (by rw [List.length_replicate]; omega) _ _
    simp [hIgAll, lset_lset_self]
  have hM3x2 : lget (lset (lset (lset (List.replicate (w + 1).toNat mNone) x1 'S')
      x2 'S') (x2 + 1) 'F') x2 mNone = 'S' := by
    rw [lget_lset_ne (by omega) _ _ _ (by omega)]
    exact lget_lset_self (by omega) (by rw [length_lset, List.length_replicate]; omega) _ _
  have lokM3x2 : lok (lset (lset (lset (List.replicate (w + 1).toNat mNone) x1 'S')
      x2 'S') (x2 + 1) 'F') x2 = true := by
    rw [lok_lset, lok_lset, lok_lset]
    exact lokMr2
  have hM3clear : lset (lset (lset (lset (List.replicate (w + 1).toNat mNone) x1 'S')
      x2 'S') (x2 + 1) 'F') x2 mNone
      = lset (lset (List.replicate (w + 1).toNat mNone) x1 'S') (x2 + 1) 'F' := by
    rw [lset_comm (show x2 + 1 ≠ x2 by omega), lset_lset_self]
    rw [lset_of_lget_eq (show lget (lset (List.replicate (w + 1).toNat mNone) x1 'S')
      x2 mNone = mNone from by
        rw [lget_lset_ne (by omega) _ _ _ (by omega)]
        exact lget_replicate _ _ _)]
  have hE3 : processCol (cfgU w h x1 x2 y0 y1) y1 x2
      { m_MARKER := lset (lset (lset (List.replicate (w + 1).toNat mNone) x1 'S')
          x2 'S') (x2 + 1) 'F'
        m_PSSTACK := List.replicate w.toNat LUTZSTATUS.COMPLETE
        m_START := lset (List.replicate w.toNat (-1)) 1 x1
        m_END := List.replicate w.toNat (-1)
        m_INFO := lset (List.replicate w.toNat []) 1
          (S1 ++ [pixData.mkP x1 y1 1] ++ [pixData.mkP (x1 + 1) y1 1]
            ++ rowPixList (x1 + 2) y1 (x2 - x1 - 2).toNat)
        m_STORE := lset (List.replicate w.toNat []) x2 S2
        m_Objects := []
        m_PS := LUTZSTATUS.COMPLETE
        m_CS := LUTZSTATUS.OBJECT
        co := 1
        pstop := 1
        ub := false
        sMergeCount := 0 } =
      { m_MARKER := lset (lset (List.replicate (w + 1).toNat mNone) x1 'S') (x2 + 1) 'F'
        m_PSSTACK := List.replicate w.toNat LUTZSTATUS.COMPLETE
        m_START := lset (List.replicate w.toNat (-1)) 1 x1
        m_END := List.replicate w.toNat (-1)
        m_INFO := lset (List.replicate w.toNat []) 1
          (S1 ++ [pixData.mkP x1 y1 1] ++ [pixData.mkP (x1 + 1) y1 1]
            ++ rowPixList (x1 + 2) y1 (x2 - x1 - 2).toNat ++ S2 ++ [pixData.mkP x2 y1 1])
        m_STORE := List.replicate w.toNat []
        m_Objects := []
        m_PS := LUTZSTATUS.OBJECT
        m_CS := LUTZSTATUS.OBJECT
        co := 1
        pstop := 2
        ub := false
        sMergeCount := 0 } := by
    have hSTx2 : lget (lset (List.replicate w.toNat ([] : RawObject)) x2 S2) x2 [] = S2 :=
      lget_lset_self (by omega) (by rw [List.length_replicate]; omega) _ _
    have lokSTx2 : lok (lset (List.replicate w.toNat ([] : RawObject)) x2 S2) x2 = true := by
      rw [lok_lset]
      exact lokIr2
    have hIgAll : ∀ L : RawObject,
        lget (lset (List.replicate w.toNat ([] : RawObject)) 1 L) 1 [] = L :=
      fun L => lget_lset_self (by omega) (by rw [List.length_replicate]; omega) _ _
    simp [processCol, ProcessNewMarker, ModOBSTACK, ModPSSTACK,
      getPix_cfgU w h x1 x2 y0 y1 x2 y1 (by omega) (by omega), hfx2, hthr,
      hM3x2, lokM3x2, hM3clear, hSTx2, lokSTx2, hS2e, hIgAll, hcS0, hcF0,
      lokMr1, lokMr11, lokMr2, lokMr21,
      lokP0, lokP1, lokS1, lokI1, lget_replicate, lset_replicate_self, lok_lset,
      lset_lset_self, pixData.mkP]
  have hM2x21 : lget (lset (lset (List.replicate (w + 1).toNat mNone) x1 'S') (x2 + 1) 'F')
      (x2 + 1) mNone = 'F' :=
    lget_lset_self (by omega) (by rw [length_lset, List.length_replicate]; omega) _ _
  have lokM2x21 : lok (lset (lset (List.replicate (w + 1).toNat mNone) x1 'S') (x2 + 1) 'F')
      (x2 + 1) = true := by
    rw [lok_lset, lok_lset]
    exact lokMr21
  have hM2clear : lset (lset (lset (List.replicate (w + 1).toNat mNone) x1 'S') (x2 + 1) 'F')
      (x2 + 1) mNone = lset (List.replicate (w + 1).toNat mNone) x1 'S' := by
    rw [lset_lset_self]
    rw [lset_of_lget_eq (show lget (lset (List.replicate (w + 1).toNat mNone) x1 'S')
      (x2 + 1) mNone = mNone from by
        rw [lget_lset_ne (by omega) _ _ _ (by omega)]
        exact lget_replicate _ _ _)]
  have hF3 : bgStep (cfgU w h x1 x2 y0 y1) (x2 + 1)
      { m_MARKER := lset (lset (List.replicate (w + 1).toNat mNone) x1 'S') (x2 + 1) 'F'
        m_PSSTACK := List.replicate w.toNat LUTZSTATUS.COMPLETE
        m_START := lset (List.replicate w.toNat (-1)) 1 x1
        m_END := List.replicate w.toNat (-1)
        m_INFO := lset (List.replicate w.toNat []) 1
          (S1 ++ [pixData.mkP x1 y1 1] ++ [pixData.mkP (x1 + 1) y1 1]
            ++ rowPixList (x1 + 2) y1 (x2 - x1 - 2).toNat ++ S2 ++ [pixData.mkP x2 y1 1])
        m_STORE := List.replicate w.toNat []
        m_Objects := []
        m_PS := LUTZSTATUS.OBJECT
        m_CS := LUTZSTATUS.OBJECT
        co := 1
        pstop := 2
        ub := false
        sMergeCount := 0 }
      = uJoinState w x1 x2
        (S1 ++ [pixData.mkP x1 y1 1] ++ [pixData.mkP (x1 + 1) y1 1]
          ++ rowPixList (x1 + 2) y1 (x2 - x1 - 2).toNat ++ S2 ++ [pixData.mkP x2 y1 1]) := by
    have hIgAll : ∀ L : RawObject,
        lget (lset (List.replicate w.toNat ([] : RawObject)) 1 L) 1 [] = L :=
      fun L => lget_lset_self (by omega) (by rw [List.length_replicate]; omega) _ _
    have hSg : lget (lset (List.replicate w.toNat (-1 : Int)) 1 x1) 1 (-1) = x1 :=
      lget_lset_self (by omega) (by rw [List.length_replicate]; omega) _ _
    simp [bgStep, EndSegment, ProcessNewMarker, ModOBSTACK, ModPSSTACK, uJoinState,
      hM2x21, lokM2x21, hM2clear, hIgAll, hSg, hcS0, hcF0, hcFS, hcFs, hcFf,
      lokMr1, lokMr11, lokMr2, lokMr21, lokIr1,
      lokP0, lokP1, lokS1, lokI1, lget_replicate, lset_replicate_self, lok_lset,
      lset_lset_self, pixData.mkP]
  have hsegA : processColsAux (cfgU w h x1 x2 y0 y1) y1 x1.toNat 0 (uBarState w x1 x2 S1 S2)
      = uBarState w x1 x2 S1 S2 := by
    refine segBG w h x1 x2 y0 y1 y1 x1.toNat 0 (uBarState w x1 x2 S1 S2) rfl
      (by simp [uBarState, length_lset]) ?_ ?_ (by omega) (by omega)
    · intro k hk
      show lget (lset (lset (lset (lset (List.replicate (w + 1).toNat mNone) x1 'S')
        (x1 + 1) 'F') x2 'S') (x2 + 1) 'F') (0 + (k : Int)) mNone = mNone
      rw [lget_lset_ne (by omega) _ _ _ (by omega), lget_lset_ne (by omega) _ _ _ (by omega),
        lget_lset_ne (by omega) _ _ _ (by omega), lget_lset_ne (by omega) _ _ _ (by omega)]
      exact lget_replicate _ _ _
    · intro k hk
      exact fU_eq_zero (by omega)
  have hL : S1 ++ [pixData.mkP x1 y1 1] ++ rowPixList (x1 + 1) y1 (x2 - x1 - 1).toNat
      ++ S2 ++ [pixData.mkP x2 y1 1]
      = S1 ++ [pixData.mkP x1 y1 1] ++ [pixData.mkP (x1 + 1) y1 1]
        ++ rowPixList (x1 + 2) y1 (x2 - x1 - 2).toNat ++ S2 ++ [pixData.mkP x2 y1 1] := by
    rw [show (x2 - x1 - 1).toNat = (x2 - x1 - 2).toNat + 1 by omega, rowPixList_succ,
      show x1 + 1 + 1 = x1 + 2 by omega]
    simp [List.append_assoc]
  rw [hL]
  unfold processRow
  show processRowEnd _ (processColsAux _ y1 w.toNat 0 (uBarState w x1 x2 S1 S2)) = _
  rcases (by omega : x2 + 1 < w ∨ x2 + 1 = w) with hcase | hcase
  · have hsplit : w.toNat = x1.toNat + (1 + (1 + ((x2 - x1 - 2).toNat +
        (1 + (1 + (w - x2 - 2).toNat))))) := by omega
    rw [hsplit]
    rw [processColsAux_add _ y1 x1.toNat _ 0 (uBarState w x1 x2 S1 S2)]
    rw [hsegA, show ((0 : Int) + (x1.toNat : Int)) = x1 by omega]
    rw [processColsAux_add _ y1 1 _ x1 (uBarState w x1 x2 S1 S2)]
    rw [processColsAux_one, hB3, show x1 + ((1 : Nat) : Int) = x1 + 1 by omega]
    rw [processColsAux_add _ y1 1 _ (x1 + 1) _]
    rw [processColsAux_one, hC3, show (x1 + 1) + ((1 : Nat) : Int) = x1 + 2 by omega]
    rw [processColsAux_add _ y1 (x2 - x1 - 2).toNat _ (x1 + 2) _]
    rw [hsegM, show (x1 + 2) + ((x2 - x1 - 2).toNat : Int) = x2 by omega]
    rw [processColsAux_add _ y1 1 _ x2 _]
    rw [processColsAux_one, hE3, show x2 + ((1 : Nat) : Int) = x2 + 1 by omega]
    rw [processColsAux_add _ y1 1 _ (x2 + 1) _]
    rw [processColsAux_one]
    rw [processCol_bg _ y1 (x2 + 1) _
      (by rw [getPix_cfgU w h x1 x2 y0 y1 (x2 + 1) y1 (by omega) (by omega)])
      (by
        rw [getPix_cfgU w h x1 x2 y0 y1 (x2 + 1) y1 (by omega) (by omega)]
        show ¬ fU x1 x2 y0 y1 (x2 + 1) y1 > (0 : ℚ)
        rw [fU_eq_zero (by omega)]
        simp)]
    rw [hF3, show (x2 + 1) + ((1 : Nat) : Int) = x2 + 2 by omega]
    rw [segBG w h x1 x2 y0 y1 y1 (w - x2 - 2).toNat (x2 + 2)
      (uJoinState w x1 x2
        (S1 ++ [pixData.mkP x1 y1 1] ++ [pixData.mkP (x1 + 1) y1 1]
          ++ rowPixList (x1 + 2) y1 (x2 - x1 - 2).toNat ++ S2 ++ [pixData.mkP x2 y1 1])) rfl
      (by simp [uJoinState, length_lset])
      (fun k hk => by
        show lget (lset (lset (List.replicate (w + 1).toNat mNone) x1 'S') (x2 + 1) 'F')
          (x2 + 2 + (k : Int)) mNone = mNone
        rw [lget_lset_ne (by omega) _ _ _ (by omega), lget_lset_ne (by omega) _ _ _ (by omega)]
        exact lget_replicate _ _ _)
      (fun k hk => fU_eq_zero (by omega)) (by omega) (by omega)]
    rw [processRowEnd_eq_bgStep _ _
      (by simp [uJoinState, length_lset, show (cfgU w h x1 x2 y0 y1).m_xpix = w from rfl])
      (by show (0 : Int) ≤ w; omega)]
    rw [show (cfgU w h x1 x2 y0 y1).m_xpix = w from rfl]
    refine bgStep_clean _ w _ ?_ ?_ rfl
    · show lget (lset (lset (List.replicate (w + 1).toNat mNone) x1 'S') (x2 + 1) 'F')
        w mNone = mNone
      rw [lget_lset_ne (by omega) _ _ _ (by omega), lget_lset_ne (by omega) _ _ _ (by omega)]
      exact lget_replicate _ _ _
    · show lok (lset (lset (List.replicate (w + 1).toNat mNone) x1 'S') (x2 + 1) 'F')
        w = true
      rw [lok_lset, lok_lset]
      exact lok_replicate _ _ _ (by omega) (by omega)
  · have hsplit : w.toNat = x1.toNat + (1 + (1 + ((x2 - x1 - 2).toNat + 1))) := by omega
    rw [hsplit]
    rw [processColsAux_add _ y1 x1.toNat _ 0 (uBarState w x1 x2 S1 S2)]
    rw [hsegA, show ((0 : Int) + (x1.toNat : Int)) = x1 by omega]
    rw [processColsAux_add _ y1 1 _ x1 (uBarState w x1 x2 S1 S2)]
    rw [processColsAux_one, hB3, show x1 + ((1 : Nat) : Int) = x1 + 1 by omega]
    rw [processColsAux_add _ y1 1 _ (x1 + 1) _]
    rw [processColsAux_one, hC3, show (x1 + 1) + ((1 : Nat) : Int) = x1 + 2 by omega]
    rw [processColsAux_add _ y1 (x2 - x1 - 2).toNat _ (x1 + 2) _]
    rw [hsegM, show (x1 + 2) + ((x2 - x1 - 2).toNat : Int) = x2 by omega]
    rw [processColsAux_one, hE3]
    rw [processRowEnd_eq_bgStep _ _
      (by simp [length_lset, show (cfgU w h x1 x2 y0 y1).m_xpix = w from rfl])
      (by show (0 : Int) ≤ w; omega)]
    rw [show (cfgU w h x1 x2 y0 y1).m_xpix = x2 + 1 from by
      show w = x2 + 1
      omega]
    exact hF3

/-- The first all-background row after the join row: the left `'S'` marker
re-opens the parked object from `m_STORE[x1]`, and the `'F'` marker at
`x2 + 1` closes it with nothing new, so `WriteObject` emits it and every
auxiliary array returns to its quiescent state. -/
theorem rowAfter (w h x1 x2 y0 y1 y : Int) (L : RawObject)
    (hx1 : 0 ≤ x1) (h12 : x1 + 2 ≤ x2) (h2w : x2 + 1 ≤ w)
    (hy : y1 < y) (hL : L ≠ []) :
    processRow (cfgU w h x1 x2 y0 y1) y (uJoinState w x1 x2 L)
      = uCleanState w [lutzObject.empty.appendVec L] := by
  have hthr : (cfgU w h x1 x2 y0 y1).m_threshold = 0 := rfl
  have hLe : L.isEmpty = false := isEmpty_false_of_ne_nil hL
  have hcS0 : 'S' ≠ mNone := by decide
  have hcF0 : 'F' ≠ mNone := by decide
  have hcFS : 'F' ≠ 'S' := by decide
  have hcFs : 'F' ≠ 's' := by decide
  have hcFf : 'F' ≠ 'f' := by decide
  have lokP0 : lok (List.replicate w.toNat LUTZSTATUS.COMPLETE) 0 = true :=
    lok_replicate _ _ _ (by omega) (by omega)
  have lokP1 : lok (List.replicate w.toNat LUTZSTATUS.COMPLETE) 1 = true :=
    lok_replicate _ _ _ (by omega) (by omega)
  have lokS1 : lok (List.replicate w.toNat (-1 : Int)) 1 = true :=
    lok_replicate _ _ _ (by omega) (by omega)
  have lokI1 : lok (List.replicate w.toNat ([] : RawObject)) 1 = true :=
    lok_replicate _ _ _ (by omega) (by omega)
  have lokMr1 : lok (List.replicate (w + 1).toNat mNone) x1 = true :=
    lok_replicate _ _ _ (by omega) (by omega)
  have lokMr21 : lok (List.replicate (w + 1).toNat mNone) (x2 + 1) = true :=
    lok_replicate _ _ _ (by omega) (by omega)
  have lokIr1 : lok (List.replicate w.toNat ([] : RawObject)) x1 = true :=
    lok_replicate _ _ _ (by omega) (by omega)
  have hMJ1 : lget (lset (lset (List.replicate (w + 1).toNat mNone) x1 'S') (x2 + 1) 'F')
      x1 mNone = 'S' := by
    rw [lget_lset_ne (by omega) _ _ _ (by omega)]
    exact lget_lset_self (by omega) (by rw [List.length_replicate]; omega) _ _
  have lokMJ1 : lok (lset (lset (List.replicate (w + 1).toNat mNone) x1 'S') (x2 + 1) 'F')
      x1 = true := by
    rw [lok_lset, lok_lset]
    exact lokMr1
  have hMJclear : lset (lset (lset (List.replicate (w + 1).toNat mNone) x1 'S') (x2 + 1) 'F')
      x1 mNone = lset (List.replicate (w + 1).toNat mNone) (x2 + 1) 'F' := by
    rw [lset_comm (show x2 + 1 ≠ x1 by omega), lset_lset_self, lset_replicate_self]
  have hSTr : lget (lset (List.replicate w.toNat ([] : RawObject)) x1 L) x1 [] = L :=
    lget_lset_self (by omega) (by rw [List.length_replicate]; omega) _ _
  have lokSTr : lok (lset (List.replicate w.toNat ([] : RawObject)) x1 L) x1 = true := by
    rw [lok_lset]
    exact lokIr1
  have hX : processCol (cfgU w h x1 x2 y0 y1) y x1 (uJoinState w x1 x2 L) =
      { m_MARKER := lset (List.replicate (w + 1).toNat mNone) (x2 + 1) 'F'
        m_PSSTACK := List.replicate w.toNat LUTZSTATUS.COMPLETE
        m_START := List.replicate w.toNat (-1)
        m_END := List.replicate w.toNat (-1)
        m_INFO := lset (List.replicate w.toNat []) 1 L
        m_STORE := List.replicate w.toNat []
        m_Objects := []
        m_PS := LUTZSTATUS.OBJECT
        m_CS := LUTZSTATUS.NONOBJECT
        co := 1
        pstop := 2
        ub := false
        sMergeCount := 0 } := by
    have hf0 : fU x1 x2 y0 y1 x1 y = 0 := fU_eq_zero (by omega)
    simp [processCol, ProcessNewMarker, ModOBSTACK, ModPSSTACK, uJoinState,
      getPix_cfgU w h x1 x2 y0 y1 x1 y (by omega) (by omega), hf0, hthr,
      hMJ1, lokMJ1, hMJclear, hSTr, lokSTr, hcS0, hcF0, lokMr1, lokMr21, lokIr1,
      lokP0, lokP1, lokS1, lokI1, lget_replicate, lset_replicate_self, lok_lset,
      lset_lset_self]
  have hMF : lget (lset (List.replicate (w + 1).toNat mNone) (x2 + 1) 'F') (x2 + 1) mNone
      = 'F' :=
    lget_lset_self (by omega) (by rw [List.length_replicate]; omega) _ _
  have lokMF : lok (lset (List.replicate (w + 1).toNat mNone) (x2 + 1) 'F') (x2 + 1)
      = true := by
    rw [lok_lset]
    exact lokMr21
  have hY : bgStep (cfgU w h x1 x2 y0 y1) (x2 + 1)
      { m_MARKER := lset (List.replicate (w + 1).toNat mNone) (x2 + 1) 'F'
        m_PSSTACK := List.replicate w.toNat LUTZSTATUS.COMPLETE
        m_START := List.replicate w.toNat (-1)
        m_END := List.replicate w.toNat (-1)
        m_INFO := lset (List.replicate w.toNat []) 1 L
        m_STORE := List.replicate w.toNat []
        m_Objects := []
        m_PS := LUTZSTATUS.OBJECT
        m_CS := LUTZSTATUS.NONOBJECT
        co := 1
        pstop := 2
        ub := false
        sMergeCount := 0 }
      = uCleanState w [lutzObject.empty.appendVec L] := by
    have hIgAll : ∀ M : RawObject,
        lget (lset (List.replicate w.toNat ([] : RawObject)) 1 M) 1 [] = M :=
      fun M => lget_lset_self (by omega) (by rw [List.length_replicate]; omega) _ _
    simp [bgStep, ProcessNewMarker, WriteObject, npixelOK, ModOBSTACK, ModPSSTACK,
      uCleanState, hMF, lokMF, hIgAll, hLe, hcS0, hcF0, hcFS, hcFs, hcFf,
      lokMr1, lokMr21, lokIr1,
      lokP0, lokP1, lokS1, lokI1, lget_replicate, lset_replicate_self, lok_lset,
      lset_lset_self, show (cfgU w h x1 x2 y0 y1).m_npixelmin = 0 from rfl]
  have hsegA : processColsAux (cfgU w h x1 x2 y0 y1) y x1.toNat 0 (uJoinState w x1 x2 L)
      = uJoinState w x1 x2 L := by
    refine segBG w h x1 x2 y0 y1 y x1.toNat 0 (uJoinState w x1 x2 L) rfl
      (by simp [uJoinState, length_lset]) ?_ ?_ (by omega) (by omega)
    · intro k hk
      show lget (lset (lset (List.replicate (w + 1).toNat mNone) x1 'S') (x2 + 1) 'F')
        (0 + (k : Int)) mNone = mNone
      rw [lget_lset_ne (by omega) _ _ _ (by omega), lget_lset_ne (by omega) _ _ _ (by omega)]
      exact lget_replicate _ _ _
    · intro k hk
      exact fU_eq_zero (by omega)
  unfold processRow
  show processRowEnd _ (processColsAux _ y w.toNat 0 (uJoinState w x1 x2 L)) = _
  rcases (by omega : x2 + 1 < w ∨ x2 + 1 = w) with hcase | hcase
  · have hsplit : w.toNat = x1.toNat + (1 + ((x2 - x1).toNat +
        (1 + (w - x2 - 2).toNat))) := by omega
    rw [hsplit]
    rw [processColsAux_add _ y x1.toNat _ 0 (uJoinState w x1 x2 L)]
    rw [hsegA, show ((0 : Int) + (x1.toNat : Int)) = x1 by omega]
    rw [processColsAux_add _ y 1 _ x1 (uJoinState w x1 x2 L)]
    rw [processColsAux_one, hX, show x1 + ((1 : Nat) : Int) = x1 + 1 by omega]
    rw [processColsAux_add _ y (x2 - x1).toNat _ (x1 + 1) _]
    rw [segBG w h x1 x2 y0 y1 y (x2 - x1).toNat (x1 + 1) _ rfl
      (by simp [length_lset])
      (fun k hk => by
        show lget (lset (List.replicate (w + 1).toNat mNone) (x2 + 1) 'F')
          (x1 + 1 + (k : Int)) mNone = mNone
        rw [lget_lset_ne (by omega) _ _ _ (by omega)]
        exact lget_replicate _ _ _)
      (fun k hk => fU_eq_zero (by omega)) (by omega) (by omega)]
    rw [show (x1 + 1) + ((x2 - x1).toNat : Int) = x2 + 1 by omega]
    rw [processColsAux_add _ y 1 _ (x2 + 1) _]
    rw [processColsAux_one]
    rw [processCol_bg _ y (x2 + 1) _
      (by rw [getPix_cfgU w h x1 x2 y0 y1 (x2 + 1) y (by omega) (by omega)])
      (by
        rw [getPix_cfgU w h x1 x2 y0 y1 (x2 + 1) y (by omega) (by omega)]
        show ¬ fU x1 x2 y0 y1 (x2 + 1) y > (0 : ℚ)
        rw [fU_eq_zero (by omega)]
        simp)]
    rw [hY, show (x2 + 1) + ((1 : Nat) : Int) = x2 + 2 by omega]
    rw [segBG w h x1 x2 y0 y1 y (w - x2 - 2).toNat (x2 + 2)
      (uCleanState w [lutzObject.empty.appendVec L]) rfl
      (by simp [uCleanState])
      (fun k hk => lget_replicate _ _ _)
      (fun k hk => fU_eq_zero (by omega)) (by omega) (by omega)]
    rw [processRowEnd_eq_bgStep _ _
      (by simp [uCleanState, show (cfgU w h x1 x2 y0 y1).m_xpix = w from rfl])
      (by show (0 : Int) ≤ w; omega)]
    rw [show (cfgU w h x1 x2 y0 y1).m_xpix = w from rfl]
    exact bgStep_clean _ w _ (lget_replicate _ _ _)
      (lok_replicate _ _ _ (by omega) (by omega)) rfl
  · have hsplit : w.toNat = x1.toNat + (1 + (x2 - x1).toNat) := by omega
    rw [hsplit]
    rw [processColsAux_add _ y x1.toNat _ 0 (uJoinState w x1 x2 L)]
    rw [hsegA, show ((0 : Int) + (x1.toNat : Int)) = x1 by omega]
    rw [processColsAux_add _ y 1 _ x1 (uJoinState w x1 x2 L)]
    rw [processColsAux_one, hX, show x1 + ((1 : Nat) : Int) = x1 + 1 by omega]
    rw [segBG w h x1 x2 y0 y1 y (x2 - x1).toNat (x1 + 1) _ rfl
      (by simp [length_lset])
      (fun k hk => by
        show lget (lset (List.replicate (w + 1).toNat mNone) (x2 + 1) 'F')
          (x1 + 1 + (k : Int)) mNone = mNone
        rw [lget_lset_ne (by omega) _ _ _ (by omega)]
        exact lget_replicate _ _ _)
      (fun k hk => fU_eq_zero (by omega)) (by omega) (by omega)]
    rw [processRowEnd_eq_bgStep _ _
      (by simp [length_lset, show (cfgU w h x1 x2 y0 y1).m_xpix = w from rfl])
      (by show (0 : Int) ≤ w; omega)]
    rw [show (cfgU w h x1 x2 y0 y1).m_xpix = x2 + 1 from by
      show w = x2 + 1
      omega]
    exact hY

theorem processRowsAux_one (cfg : lutzConfig) (y : Int) (s : lutzState) :
    processRowsAux cfg 1 y s = processRow cfg y s := rfl

theorem barPixList_cons (c y : Int) (n : Nat) :
    barPixList c y (n + 1) = pixData.mkP c y 1 :: barPixList c (y + 1) n := by
  unfold barPixList
  rw [List.range_succ_eq_map]
  simp only [List.map_cons, List.map_map, Nat.cast_zero, add_zero, List.cons.injEq]
  refine ⟨trivial, ?_⟩
  refine List.map_congr_left ?_
  intro i _
  show pixData.mkP c (y + ((i : Int) + 1)) 1 = pixData.mkP c (y + 1 + (i : Int)) 1
  rw [show y + ((i : Int) + 1) = y + 1 + (i : Int) by ring]

theorem barPixList_add (c y0 : Int) (m n : Nat) :
    barPixList c y0 (m + n) = barPixList c y0 m ++ barPixList c (y0 + (m : Int)) n := by
  unfold barPixList
  rw [List.range_add, List.map_append, List.map_map]
  congr 1
  refine List.map_congr_left ?_
  intro i _
  show pixData.mkP c (y0 + ((m + i : Nat) : Int)) 1
      = pixData.mkP c (y0 + (m : Int) + (i : Int)) 1
  rw [show y0 + ((m + i : Nat) : Int) = y0 + (m : Int) + (i : Int) by push_cast; ring]

theorem barPixList_one (c y : Int) : barPixList c y 1 = [pixData.mkP c y 1] := by
  rw [barPixList_cons]
  rfl

theorem barPixList_ne_nil (c y : Int) (n : Nat) (hn : 0 < n) : barPixList c y n ≠ [] := by
  cases n with
  | zero => omega
  | succ m =>
    rw [barPixList_cons]
    exact List.cons_ne_nil _ _

/-- A row whose every in-range column is background leaves the quiescent
state unchanged. -/
theorem rowBgClean (w h x1 x2 y0 y1 y : Int) (hw : 0 ≤ w) (objs : List lutzObject)
    (hbg : ∀ x : Int, 0 ≤ x → x < w → fU x1 x2 y0 y1 x y = 0) :
    processRow (cfgU w h x1 x2 y0 y1) y (uCleanState w objs) = uCleanState w objs := by
  unfold processRow
  show processRowEnd _ (processColsAux _ y w.toNat 0 (uCleanState w objs)) = _
  rw [segBG w h x1 x2 y0 y1 y w.toNat 0 (uCleanState w objs) rfl (by simp [uCleanState])
    (fun k hk => lget_replicate _ _ _)
    (fun k hk => hbg (0 + (k : Int)) (by omega) (by omega)) (by omega) (by omega)]
  rw [processRowEnd_eq_bgStep _ _
    (by simp [uCleanState, show (cfgU w h x1 x2 y0 y1).m_xpix = w from rfl])
    (by show (0 : Int) ≤ w; omega)]
  rw [show (cfgU w h x1 x2 y0 y1).m_xpix = w from rfl]
  exact bgStep_clean _ w _ (lget_replicate _ _ _)
    (lok_replicate _ _ _ (by omega) (by omega)) rfl

/-- A run of all-background rows leaves the quiescent state unchanged. -/
theorem cleanRows (w h x1 x2 y0 y1 : Int) (hw : 0 ≤ w) (objs : List lutzObject) :
    ∀ (n : Nat) (y : Int),
      (∀ k : Nat, k < n → ∀ x : Int, 0 ≤ x → x < w → fU x1 x2 y0 y1 x (y + (k : Int)) = 0) →
      processRowsAux (cfgU w h x1 x2 y0 y1) n y (uCleanState w objs) = uCleanState w objs
  | 0, _, _ => rfl
  | n + 1, y, hbg => by
    show processRowsAux _ n (y + 1) (processRow _ y (uCleanState w objs)) = _
    rw [rowBgClean w h x1 x2 y0 y1 y hw objs (fun x hx0 hxw => by
      have hs := hbg 0 (by omega) x hx0 hxw
      norm_num at hs
      exact hs)]
    exact cleanRows w h x1 x2 y0 y1 hw objs n (y + 1) (fun k hk x hx0 hxw => by
      have hs := hbg (k + 1) (by omega) x hx0 hxw
      push_cast at hs
      rw [show y + ((k : Int) + 1) = y + 1 + (k : Int) by ring] at hs
      exact hs)

/-- The rows of the bar phase: each one extends both `m_STORE` fragments by
one bar pixel. -/
theorem barRows (w h x1 x2 y0 y1 : Int)
    (hx1 : 0 ≤ x1) (h12 : x1 + 2 ≤ x2) (h2w : x2 + 1 ≤ w) :
    ∀ (n : Nat) (y : Int) (S1 S2 : RawObject),
      y0 ≤ y → y + (n : Int) ≤ y1 → S1 ≠ [] → S2 ≠ [] →
      processRowsAux (cfgU w h x1 x2 y0 y1) n y (uBarState w x1 x2 S1 S2)
        = uBarState w x1 x2 (S1 ++ barPixList x1 y n) (S2 ++ barPixList x2 y n)
  | 0, y, S1, S2, _, _, _, _ => by
    show uBarState w x1 x2 S1 S2 = _
    rw [show barPixList x1 y 0 = [] from rfl, show barPixList x2 y 0 = [] from rfl,
      List.append_nil, List.append_nil]
  | n + 1, y, S1, S2, hy0, hyn, hS1, hS2 => by
    show processRowsAux _ n (y + 1) (processRow _ y (uBarState w x1 x2 S1 S2)) = _
    rw [rowBarNext w h x1 x2 y0 y1 y S1 S2 hx1 h12 h2w hy0 (by
      push_cast at hyn
      omega) hS1 hS2]
    rw [barRows w h x1 x2 y0 y1 hx1 h12 h2w n (y + 1) _ _ (by omega) (by
        push_cast at hyn ⊢
        omega)
      (append_singleton_ne_nil _ _) (append_singleton_ne_nil _ _)]
    rw [barPixList_cons x1 y n, barPixList_cons x2 y n]
    simp [List.append_assoc]

/-- `init_members` on a U-shape configuration is the quiescent state. -/
theorem init_members_cfgU (w h x1 x2 y0 y1 : Int) (hw : 0 ≤ w) :
    init_members (cfgU w h x1 x2 y0 y1) = uCleanState w [] := by
  simp [init_members, uCleanState, show (cfgU w h x1 x2 y0 y1).m_xpix = w from rfl,
    decide_eq_false (show ¬ (w < 0) by omega)]

theorem objPositions_append_superset (o : lutzObject) (p : pixData) {z : Int × Int}
    (hz : z ∈ objPositions o) : z ∈ objPositions (o.append p) := by
  unfold lutzObject.append
  by_cases hc : o.contains p = true
  · rw [if_pos hc]
    exact hz
  · rw [if_neg hc]
    show z ∈ (o.m_pixInfo ++ [p]).map pixPos
    rw [List.map_append]
    exact List.mem_append_left _ hz

theorem pixPos_mem_append (o : lutzObject) (p : pixData) :
    pixPos p ∈ objPositions (o.append p) := by
  unfold lutzObject.append
  by_cases hc : o.contains p = true
  · rw [if_pos hc]
    unfold lutzObject.contains at hc
    simp only [List.any_eq_true, Bool.and_eq_true, beq_iff_eq] at hc
    obtain ⟨q, hq, hqx, hqy⟩ := hc
    exact List.mem_map.mpr ⟨q, hq, by simp [pixPos, hqx, hqy]⟩
  · rw [if_neg hc]
    show pixPos p ∈ (o.m_pixInfo ++ [p]).map pixPos
    rw [List.map_append]
    exact List.mem_append_right _ (by simp)

theorem objPositions_appendVec_superset (ps : List pixData) (o : lutzObject) {z : Int × Int}
    (hz : z ∈ objPositions o) : z ∈ objPositions (o.appendVec ps) := by
  induction ps generalizing o with
  | nil => exact hz
  | cons p t ih =>
    show z ∈ objPositions ((o.append p).appendVec t)
    exact ih _ (objPositions_append_superset o p hz)

theorem mem_objPositions_appendVec (ps : List pixData) (o : lutzObject) (p : pixData)
    (hp : p ∈ ps) : pixPos p ∈ objPositions (o.appendVec ps) := by
  induction ps generalizing o with
  | nil => cases hp
  | cons q t ih =>
    show pixPos p ∈ objPositions ((o.append q).appendVec t)
    rcases List.mem_cons.mp hp with h | h
    · subst h
      exact objPositions_appendVec_superset t _ (pixPos_mem_append o p)
    · exact ih (o.append q) h

theorem mem_barPixList (c y0 : Int) (k : Nat) (y : Int) (h0 : y0 ≤ y) (h1 : y < y0 + k) :
    pixData.mkP c y 1 ∈ barPixList c y0 k := by
  unfold barPixList
  refine List.mem_map.mpr ⟨(y - y0).toNat, List.mem_range.mpr (by omega), ?_⟩
  show pixData.mkP c (y0 + (((y - y0).toNat : Nat) : Int)) 1 = pixData.mkP c y 1
  rw [show y0 + (((y - y0).toNat : Nat) : Int) = y by omega]

theorem mem_rowPixList (a y : Int) (n : Nat) (x : Int) (h0 : a ≤ x) (h1 : x < a + n) :
    pixData.mkP x y 1 ∈ rowPixList a y n := by
  unfold rowPixList
  refine List.mem_map.mpr ⟨(x - a).toNat, List.mem_range.mpr (by omega), ?_⟩
  show pixData.mkP (a + (((x - a).toNat : Nat) : Int)) y 1 = pixData.mkP x y 1
  rw [show a + (((x - a).toNat : Nat) : Int) = x by omega]

/-- Every foreground position of the U appears in `uPixList`. -/
theorem mem_uPixList (x1 x2 y0 y1 x y : Int) (hy01 : y0 < y1)
    (hf : 0 < fU x1 x2 y0 y1 x y) :
    pixData.mkP x y 1 ∈ uPixList x1 x2 y0 y1 := by
  unfold uPixList
  rcases (fU_pos_iff x1 x2 y0 y1 x y).mp hf with ⟨hya, hyb, hx | hx⟩ | ⟨hyy, hxa, hxb⟩
  · subst hx
    exact List.mem_append_left _ (List.mem_append_left _ (List.mem_append_left _
      (List.mem_append_left _ (mem_barPixList x y0 (y1 - y0).toNat y hya (by omega)))))
  · subst hx
    exact List.mem_append_left _ (List.mem_append_right _
      (mem_barPixList x y0 (y1 - y0).toNat y hya (by omega)))
  · subst hyy
    by_cases hx1 : x = x1
    · subst hx1
      exact List.mem_append_left _ (List.mem_append_left _ (List.mem_append_left _
        (List.mem_append_right _ (by simp))))
    · by_cases hx2 : x = x2
      · subst hx2
        exact List.mem_append_right _ (by simp)
      · exact List.mem_append_left _ (List.mem_append_left _ (List.mem_append_right _
          (mem_rowPixList (x1 + 1) y (x2 - x1 - 1).toNat x (by omega) (by omega))))

/-- Full scan of a U-shape configuration with a background row below the
join: exactly one object is emitted, built from `uPixList`. -/
theorem runState_cfgU (w h x1 x2 y0 y1 : Int)
    (hx1 : 0 ≤ x1) (h12 : x1 + 2 ≤ x2) (h2w : x2 + 1 ≤ w)
    (hy0 : 0 ≤ y0) (hy01 : y0 < y1) (hy1h : y1 + 1 < h) :
    runState (cfgU w h x1 x2 y0 y1)
      = uCleanState w [lutzObject.empty.appendVec (uPixList x1 x2 y0 y1)] := by
  have hw : (0 : Int) ≤ w := by omega
  unfold runState
  rw [init_members_cfgU w h x1 x2 y0 y1 hw]
  rw [show (cfgU w h x1 x2 y0 y1).m_ypix = h from rfl]
  have hsplit : h.toNat = y0.toNat + (1 + ((y1 - y0 - 1).toNat +
      (1 + (1 + (h - y1 - 2).toNat)))) := by omega
  rw [hsplit]
  rw [processRowsAux_add _ y0.toNat _ 0 _]
  rw [cleanRows w h x1 x2 y0 y1 hw [] y0.toNat 0
    (fun k hk x hx0 hxw => fU_eq_zero (by omega))]
  rw [show ((0 : Int) + (y0.toNat : Int)) = y0 by omega]
  rw [processRowsAux_add _ 1 _ y0 _]
  rw [processRowsAux_one, rowBarFirst w h x1 x2 y0 y1 y0 hx1 h12 h2w (le_refl y0) hy01]
  rw [show y0 + ((1 : Nat) : Int) = y0 + 1 by omega]
  rw [processRowsAux_add _ (y1 - y0 - 1).toNat _ (y0 + 1) _]
  rw [show [pixData.mkP x1 y0 1] = barPixList x1 y0 1 from (barPixList_one x1 y0).symm,
    show [pixData.mkP x2 y0 1] = barPixList x2 y0 1 from (barPixList_one x2 y0).symm]
  rw [barRows w h x1 x2 y0 y1 hx1 h12 h2w (y1 - y0 - 1).toNat (y0 + 1) _ _
    (by omega) (by omega)
    (barPixList_ne_nil _ _ _ (by omega)) (barPixList_ne_nil _ _ _ (by omega))]
  have hbar1 : barPixList x1 y0 1 ++ barPixList x1 (y0 + 1) (y1 - y0 - 1).toNat
      = barPixList x1 y0 (y1 - y0).toNat := by
    have hadd := barPixList_add x1 y0 1 (y1 - y0 - 1).toNat
    rw [Nat.cast_one] at hadd
    rw [show 1 + (y1 - y0 - 1).toNat = (y1 - y0).toNat by omega] at hadd
    exact hadd.symm
  have hbar2 : barPixList x2 y0 1 ++ barPixList x2 (y0 + 1) (y1 - y0 - 1).toNat
      = barPixList x2 y0 (y1 - y0).toNat := by
    have hadd := barPixList_add x2 y0 1 (y1 - y0 - 1).toNat
    rw [Nat.cast_one] at hadd
    rw [show 1 + (y1 - y0 - 1).toNat = (y1 - y0).toNat by omega] at hadd
    exact hadd.symm
  rw [hbar1, hbar2]
  rw [show (y0 + 1) + (((y1 - y0 - 1).toNat : Nat) : Int) = y1 by omega]
  rw [processRowsAux_add _ 1 _ y1 _, processRowsAux_one]
  rw [rowJoin w h x1 x2 y0 y1 _ _ hx1 h12 h2w
    (barPixList_ne_nil _ _ _ (by omega)) (barPixList_ne_nil _ _ _ (by omega))]
  rw [show y1 + ((1 : Nat) : Int) = y1 + 1 by omega]
  rw [processRowsAux_add _ 1 _ (y1 + 1) _, processRowsAux_one]
  rw [rowAfter w h x1 x2 y0 y1 (y1 + 1) _ hx1 h12 h2w (by omega)
    (append_singleton_ne_nil _ _)]
  rw [show (y1 + 1) + ((1 : Nat) : Int) = y1 + 2 by omega]
  rw [cleanRows w h x1 x2 y0 y1 hw _ (h - y1 - 2).toNat (y1 + 2)
    (fun k hk x hx0 hxw => fU_eq_zero (by omega))]
  rw [StoreClearance_clean _ _
    (show (uCleanState w [lutzObject.empty.appendVec
        (barPixList x1 y0 (y1 - y0).toNat ++ [pixData.mkP x1 y1 1]
          ++ rowPixList (x1 + 1) y1 (x2 - x1 - 1).toNat
          ++ barPixList x2 y0 (y1 - y0).toNat ++ [pixData.mkP x2 y1 1])]).m_STORE
      = List.replicate w.toNat ([] : RawObject) from rfl)]
  rfl

/-- C2 (amended): for every U-shaped grid of the parametric family `cfgU`
(two one-pixel-wide vertical bars at columns `x1 < x2` over rows
`y0 ≤ y < y1`, joined by the horizontal row `y1`, with a background row
below the join), `run()` emits exactly one object, that object's position
list covers every foreground pixel of all three arms, and no undefined
behavior occurs.  The start-minor `'s'` merge branch is NOT what achieves
this: it never executes on these grids (`sMergeCount = 0`); the rejoin
happens through the start-major `'S'` path, which folds the parked
`m_STORE` fragments back into the open segment. -/
theorem C2_amended (w h x1 x2 y0 y1 : Int)
    (hx1 : 0 ≤ x1) (h12 : x1 + 2 ≤ x2) (h2w : x2 + 1 ≤ w)
    (hy0 : 0 ≤ y0) (hy01 : y0 < y1) (hy1h : y1 + 1 < h) :
    (runState (cfgU w h x1 x2 y0 y1)).m_Objects
        = [lutzObject.empty.appendVec (uPixList x1 x2 y0 y1)]
      ∧ (∀ x y : Int, 0 < fU x1 x2 y0 y1 x y →
          (x, y) ∈ objPositions (lutzObject.empty.appendVec (uPixList x1 x2 y0 y1)))
      ∧ (runState (cfgU w h x1 x2 y0 y1)).sMergeCount = 0
      ∧ (runState (cfgU w h x1 x2 y0 y1)).ub = false := by
  have hrun := runState_cfgU w h x1 x2 y0 y1 hx1 h12 h2w hy0 hy01 hy1h
  refine ⟨by rw [hrun]; rfl, ?_, by rw [hrun]; rfl, by rw [hrun]; rfl⟩
  intro x y hf
  have hmem := mem_uPixList x1 x2 y0 y1 x y hy01 hf
  have hpos := mem_objPositions_appendVec (uPixList x1 x2 y0 y1) lutzObject.empty
    (pixData.mkP x y 1) hmem
  exact hpos

/-- C2 witness: the amended theorem applied to the 3-by-3 U
(`X.X / XXX / ...`). -/
theorem C2_witness :
    (runState (cfgU 3 3 0 2 0 1)).m_Objects
        = [lutzObject.empty.appendVec (uPixList 0 2 0 1)]
      ∧ (∀ x y : Int, 0 < fU 0 2 0 1 x y →
          (x, y) ∈ objPositions (lutzObject.empty.appendVec (uPixList 0 2 0 1)))
      ∧ (runState (cfgU 3 3 0 2 0 1)).sMergeCount = 0
      ∧ (runState (cfgU 3 3 0 2 0 1)).ub = false :=
  C2_amended 3 3 0 2 0 1 (by decide) (by decide) (by decide) (by decide) (by decide)
    (by decide)
